import Mathlib

/-!
Verification development for the season-aware farming-advisor service.

The JavaScript sources are shallowly embedded: JS numbers are rational
numbers (`Rat`), with an explicit three-point extension (`JsNum`) where the
code can produce `Infinity` or `-Infinity`; JS truthiness tests are spelled
out at each use site; thrown exceptions become `Except` errors; the wall
clock and the two remote HTTP services are environment inputs.  Push
sequences onto the mutable arrays of the source are modelled as per-step
list fragments concatenated in the source's push order.
-/

namespace PlantAdvisor

/-! Rational arithmetic is written with kernel-computable wrappers
(`Rat.divInt` over cross-multiplied numerators), so that every concrete run
of the embedded code can be checked by `decide`/`rfl`; the bridge lemmas
`qAdd_eq`, `qSub_eq`, `qMul_eq` below identify them with `+`, `-`, `*`. -/

/-- Kernel-computable rational addition. -/
def qAdd (a b : Rat) : Rat :=
  Rat.divInt (a.num * (b.den : Int) + b.num * (a.den : Int)) ((a.den : Int) * (b.den : Int))

/-- Kernel-computable rational subtraction. -/
def qSub (a b : Rat) : Rat :=
  Rat.divInt (a.num * (b.den : Int) - b.num * (a.den : Int)) ((a.den : Int) * (b.den : Int))

/-- Kernel-computable rational multiplication. -/
def qMul (a b : Rat) : Rat :=
  Rat.divInt (a.num * b.num) ((a.den : Int) * (b.den : Int))

/-- JS `Math.round`: round half toward positive infinity. -/
def jsRound (q : Rat) : Int := (qAdd q (mkRat 1 2)).floor

/-- JS `Math.round(x * 10) / 10`: round to one decimal place. -/
def round1 (q : Rat) : Rat := Rat.divInt (jsRound (qMul q 10)) 10

/-- Decimal digits, fuel-indexed so that the recursion is structural and
kernel-reducible (the fuel `n + 1` always suffices since the argument
shrinks by a factor of ten each step). -/
def natDigitsAux : Nat → Nat → List Char
  | 0, _ => []
  | fuel + 1, n =>
    if n < 10 then [Char.ofNat (48 + n)]
    else natDigitsAux fuel (n / 10) ++ [Char.ofNat (48 + n % 10)]

/-- Decimal digits of a natural number, most significant first. -/
def natDigits (n : Nat) : List Char := natDigitsAux (n + 1) n

/-- Decimal rendering of a natural number. -/
def natRepr (n : Nat) : String := String.mk (natDigits n)

/-- Decimal rendering of an integer. -/
def intRepr : Int → String
  | .ofNat n => natRepr n
  | .negSucc n => "-" ++ natRepr (n + 1)

/-- Rendering of a JS number inside a template literal.  Integral values
print as integers; non-integral rationals print as `num/den` (the JS
engine's decimal notation is not reproduced, which no claim depends on). -/
def ratRepr (q : Rat) : String :=
  intRepr q.num ++ (if q.den = 1 then "" else "/" ++ natRepr q.den)

/-- JS `String.prototype.toLowerCase` restricted to its ASCII behaviour. -/
def jsToLower (s : String) : String := String.mk (s.data.map Char.toLower)

/-- Left brace character (written by code so that no brace pair occurs in a literal). -/
def leftBrace : Char := Char.ofNat 123

/-- Right brace character. -/
def rightBrace : Char := Char.ofNat 125

/-- A JS number that may be `Infinity` or `-Infinity` (produced by the
summarizer's running max/min over an empty forecast list). -/
inductive JsNum where
  | fin (q : Rat)
  | posInf
  | negInf
deriving DecidableEq, Repr

namespace JsNum

/-- JS `<` on (non-NaN) numbers. -/
def ltB : JsNum → JsNum → Bool
  | negInf, negInf => false
  | negInf, _ => true
  | fin _, negInf => false
  | fin a, fin b => decide (a < b)
  | fin _, posInf => true
  | posInf, _ => false

/-- `a > b` in JS, i.e. `b < a`. -/
def gtB (a b : JsNum) : Bool := ltB b a

/-- `a > q` for a finite right operand. -/
def gtR (a : JsNum) (q : Rat) : Bool := ltB (fin q) a

/-- `a < q` for a finite right operand. -/
def ltR (a : JsNum) (q : Rat) : Bool := ltB a (fin q)

/-- Subtract a finite number (used for the Kelvin-to-Celsius shift). -/
def subR : JsNum → Rat → JsNum
  | fin a, b => fin (a - b)
  | posInf, _ => posInf
  | negInf, _ => negInf

/-- JS `Math.round(x * 10) / 10` lifted to `JsNum` (infinities are fixed points). -/
def round1N : JsNum → JsNum
  | fin q => fin (round1 q)
  | posInf => posInf
  | negInf => negInf

/-- Rendering used inside template literals.  Note: finite values are printed
with `Rat`'s renderer; the decimal notation of the JS engine is not
reproduced, which no claim depends on. -/
def toStr : JsNum → String
  | fin q => ratRepr q
  | posInf => "Infinity"
  | negInf => "-Infinity"

end JsNum

/-! ## `src/config/config.js` — the static knowledge tables -/

structure PhRange where
  min : Rat
  max : Rat
  optimal : Rat
deriving Repr, DecidableEq

structure VarietyInfo where
  description : String
  droughtResistance : String
deriving Repr, DecidableEq

structure CropInfo where
  name : String
  waterNeeds : String
  season : String
  growthPeriod : String
  soilPh : PhRange
  growthStates : List String
  varieties : List (String × VarietyInfo)
deriving Repr, DecidableEq

structure SeasonCfg where
  startMonth : String
  endMonth : String
  description : String
deriving Repr, DecidableEq

structure GrowthStateCfg where
  description : String
  duration : String
deriving Repr, DecidableEq

structure PhCategory where
  range : String
  description : String
deriving Repr, DecidableEq

structure TempThresholds where
  min : Rat
  max : Rat
deriving Repr, DecidableEq

structure WindThresholds where
  warning : Rat
  danger : Rat
deriving Repr, DecidableEq

structure RainThresholds where
  light : Rat
  moderate : Rat
  heavy : Rat
deriving Repr, DecidableEq

structure WeatherThresholds where
  temperature : TempThresholds
  windSpeed : WindThresholds
  rainfall : RainThresholds
deriving Repr, DecidableEq

def weatherThresholds : WeatherThresholds :=
  { temperature := { min := 10, max := 35 }
    windSpeed := { warning := 20, danger := 40 }
    rainfall := { light := mkRat 5 2, moderate := mkRat 15 2, heavy := 15 } }

def defaultLat : Rat := mkRat (-19441) 10000
def defaultLon : Rat := mkRat 300619 10000

def seasonsCfg : List (String × SeasonCfg) :=
  [ ("shortDry", { startMonth := "January", endMonth := "February", description := "Short dry season" })
  , ("longRains", { startMonth := "March", endMonth := "May", description := "Long rainy season" })
  , ("longDry", { startMonth := "June", endMonth := "September", description := "Long dry season" })
  , ("shortRains", { startMonth := "October", endMonth := "December", description := "Short rainy season" }) ]

def growthStatesCfg : List (String × GrowthStateCfg) :=
  [ ("germination", { description := "Seed germination and early seedling stage", duration := "7-14 days" })
  , ("vegetative", { description := "Active growth of leaves and stems", duration := "30-60 days" })
  , ("flowering", { description := "Flower development and pollination", duration := "7-21 days" })
  , ("fruiting", { description := "Fruit development and maturation", duration := "30-90 days" }) ]

structure SoilPhCategories where
  very_acidic : PhCategory
  acidic : PhCategory
  slightly_acidic : PhCategory
  neutral : PhCategory
  slightly_alkaline : PhCategory
  alkaline : PhCategory
deriving Repr, DecidableEq

def soilPhCategories : SoilPhCategories :=
  { very_acidic := { range := "4.0-5.0", description := "Very acidic soil, may need lime application" }
    acidic := { range := "5.1-6.0", description := "Acidic soil, suitable for acid-loving crops" }
    slightly_acidic := { range := "6.1-6.5", description := "Slightly acidic, good for most crops" }
    neutral := { range := "6.6-7.3", description := "Neutral pH, optimal for most crops" }
    slightly_alkaline := { range := "7.4-7.8", description := "Slightly alkaline, may need acidification" }
    alkaline := { range := "7.9-8.5", description := "Alkaline soil, may limit nutrient availability" } }

def maizeInfo : CropInfo :=
  { name := "Maize", waterNeeds := "high", season := "longRains", growthPeriod := "90-120 days"
    soilPh := { min := mkRat 11 2, max := mkRat 15 2, optimal := mkRat 13 2 }
    growthStates := ["germination", "vegetative", "flowering", "fruiting"]
    varieties :=
      [ ("hybrid_maize", { description := "High-yield hybrid varieties", droughtResistance := "moderate" })
      , ("local_maize", { description := "Traditional local varieties", droughtResistance := "high" })
      , ("sweet_corn", { description := "Sweet corn varieties", droughtResistance := "low" }) ] }

def beansInfo : CropInfo :=
  { name := "Beans", waterNeeds := "moderate", season := "shortRains", growthPeriod := "60-90 days"
    soilPh := { min := 6, max := mkRat 15 2, optimal := mkRat 34 5 }
    growthStates := ["germination", "vegetative", "flowering", "fruiting"]
    varieties :=
      [ ("climbing_beans", { description := "Climbing bean varieties", droughtResistance := "moderate" })
      , ("bush_beans", { description := "Bush bean varieties", droughtResistance := "high" })
      , ("kidney_beans", { description := "Kidney bean varieties", droughtResistance := "moderate" }) ] }

def potatoesInfo : CropInfo :=
  { name := "Potatoes", waterNeeds := "moderate", season := "longRains", growthPeriod := "90-120 days"
    soilPh := { min := 5, max := mkRat 13 2, optimal := mkRat 29 5 }
    growthStates := ["germination", "vegetative", "flowering", "fruiting"]
    varieties :=
      [ ("irish_potato", { description := "Traditional Irish potato", droughtResistance := "moderate" })
      , ("sweet_potato", { description := "Sweet potato varieties", droughtResistance := "high" })
      , ("new_potato", { description := "Early maturing varieties", droughtResistance := "moderate" }) ] }

def bananasInfo : CropInfo :=
  { name := "Bananas", waterNeeds := "high", season := "all", growthPeriod := "9-12 months"
    soilPh := { min := mkRat 11 2, max := 7, optimal := mkRat 31 5 }
    growthStates := ["germination", "vegetative", "flowering", "fruiting"]
    varieties :=
      [ ("cavendish", { description := "Cavendish banana variety", droughtResistance := "moderate" })
      , ("plantain", { description := "Plantain varieties", droughtResistance := "high" })
      , ("lady_finger", { description := "Lady finger banana", droughtResistance := "low" }) ] }

def cropsCfg : List (String × CropInfo) :=
  [ ("maize", maizeInfo), ("beans", beansInfo), ("potatoes", potatoesInfo), ("bananas", bananasInfo) ]

/-- First-match association-list lookup (JS object property access on these
fixed tables, which have no duplicate keys). -/
def lookupStr {α : Type} (l : List (String × α)) (k : String) : Option α :=
  (l.find? (fun p => p.1 = k)).map (fun p => p.2)

/-! ## `src/utils/weatherUtils.js` -/

structure SeasonInfo where
  season : String
  description : String
  currentMonth : Nat
  startMonth : String
  endMonth : String
deriving Repr, DecidableEq

/-- `detectCurrentSeason`, with the wall clock abstracted into the `month`
argument (1–12).  The source spreads `config.seasons[season]` into the
result after the locally built `description`, so the config's short
description is the one that survives. -/
def detectCurrentSeason (month : Nat) : SeasonInfo :=
  let season :=
    if 1 ≤ month ∧ month ≤ 2 then "shortDry"
    else if 3 ≤ month ∧ month ≤ 5 then "longRains"
    else if 6 ≤ month ∧ month ≤ 9 then "longDry"
    else "shortRains"
  let cfg := (lookupStr seasonsCfg season).getD
    { startMonth := "", endMonth := "", description := "" }
  { season := season, description := cfg.description, currentMonth := month
    startMonth := cfg.startMonth, endMonth := cfg.endMonth }

/-- One entry of the raw provider payload's `list`.  `rain` is the value of
`rain["3h"]` when the `rain` object and that key are present; `windSpeed`
is `wind.speed` when the `wind` object is present. -/
structure ForecastPoint where
  temp : Rat
  rain : Option Rat
  windSpeed : Option Rat
deriving Repr, DecidableEq

structure CityInfo where
  lat : Rat
  lon : Rat
  name : String
deriving Repr, DecidableEq

/-- The raw payload.  `list := none` models an absent/null `list` field;
an empty JS array is `some []` (and is truthy in JS). -/
structure ForecastData where
  list : Option (List ForecastPoint)
  city : Option CityInfo
deriving Repr, DecidableEq

structure LocationInfo where
  lat : Rat
  lon : Rat
  name : String
deriving Repr, DecidableEq

structure ForecastSummary where
  totalRainfall : Rat
  maxTemperature : JsNum
  minTemperature : JsNum
  maxWindSpeed : Rat
  rainHours : Nat
  heavyRainHours : Nat
  windHours : Nat
  conditions : List String
  forecastPeriod : String
  location : LocationInfo
  warnings : List String := []
deriving Repr, DecidableEq

/-- Accumulator of the summarizer's `forEach` body. -/
structure SumAcc where
  maxTemp : JsNum := .negInf
  minTemp : JsNum := .posInf
  totalRainfall : Rat := 0
  maxWindSpeed : Rat := 0
  rainHours : Nat := 0
  heavyRainHours : Nat := 0
  windHours : Nat := 0
deriving Repr, DecidableEq

/-- One iteration of the summarizer's `forEach`, transcribed field-wise (the
source mutates the accumulator's fields in sequence; they are independent,
so the parallel record build is the same function).  `rain && rain["3h"]` is
JS truthiness: the value must be present and non-zero; the heavy-rain count
sits inside that truthiness guard in the source. -/
def stepPoint (acc : SumAcc) (p : ForecastPoint) : SumAcc :=
  { maxTemp := if JsNum.gtB (.fin p.temp) acc.maxTemp then .fin p.temp else acc.maxTemp
    minTemp := if JsNum.ltB (.fin p.temp) acc.minTemp then .fin p.temp else acc.minTemp
    totalRainfall :=
      match p.rain with
      | some r => if r ≠ 0 then qAdd acc.totalRainfall r else acc.totalRainfall
      | none => acc.totalRainfall
    rainHours :=
      match p.rain with
      | some r => if r ≠ 0 then acc.rainHours + 1 else acc.rainHours
      | none => acc.rainHours
    heavyRainHours :=
      match p.rain with
      | some r =>
        if r ≠ 0 ∧ weatherThresholds.rainfall.heavy ≤ r then acc.heavyRainHours + 1
        else acc.heavyRainHours
      | none => acc.heavyRainHours
    maxWindSpeed :=
      match p.windSpeed with
      | some w => if acc.maxWindSpeed < w then w else acc.maxWindSpeed
      | none => acc.maxWindSpeed
    windHours :=
      match p.windSpeed with
      | some w =>
        if weatherThresholds.windSpeed.warning ≤ w then acc.windHours + 1 else acc.windHours
      | none => acc.windHours }

def invalidForecastMsg : String := "Invalid forecast data received"

/-- Message standing for the `TypeError` the JS engine raises when
`forecastData.city.coord` is read off an absent `city`. -/
def cityTypeErrorMsg : String := "TypeError: cannot read coord of undefined"

/-- `summarizeForecast`.  The guard is the literal JS test
`!forecastData || !forecastData.list`: an empty `list` array is truthy and
passes it.  A missing `city` raises a `TypeError`, not the invalid-data
error. -/
def summarizeForecast (forecastData : Option ForecastData) : Except String ForecastSummary :=
  match forecastData with
  | none => .error invalidForecastMsg
  | some fd =>
    match fd.list with
    | none => .error invalidForecastMsg
    | some pts =>
      let forecasts := pts.take 16
      let acc := forecasts.foldl stepPoint {}
      let maxTempC := (acc.maxTemp.subR (mkRat 27315 100)).round1N
      let minTempC := (acc.minTemp.subR (mkRat 27315 100)).round1N
      let maxWindKmh : Rat := ((jsRound (qMul acc.maxWindSpeed (mkRat 18 5)) : Int) : Rat)
      let conditions :=
        (if 0 < acc.totalRainfall then ["rain"] else [])
        ++ (if 0 < acc.heavyRainHours then ["heavy_rain"] else [])
        ++ (if 0 < acc.windHours then ["wind"] else [])
        ++ (if maxTempC.gtR weatherThresholds.temperature.max then ["high_temperature"] else [])
        ++ (if minTempC.ltR weatherThresholds.temperature.min then ["low_temperature"] else [])
      match fd.city with
      | none => .error cityTypeErrorMsg
      | some city =>
        .ok { totalRainfall := round1 acc.totalRainfall
              maxTemperature := maxTempC
              minTemperature := minTempC
              maxWindSpeed := maxWindKmh
              rainHours := acc.rainHours
              heavyRainHours := acc.heavyRainHours
              windHours := acc.windHours
              conditions := conditions
              forecastPeriod := "48 hours"
              location := { lat := city.lat, lon := city.lon, name := city.name }
              warnings := [] }

def highTempWarningMsg (t : JsNum) : String :=
  "High temperature warning: " ++ t.toStr ++ "°C expected. Consider shade protection for crops."

def lowTempWarningMsg (t : JsNum) : String :=
  "Low temperature warning: " ++ t.toStr ++ "°C expected. Protect sensitive crops from cold."

def dangerWindMsg (w : Rat) : String :=
  "Dangerous wind conditions: " ++ ratRepr w ++ " km/h expected. Secure structures and protect crops."

def windWarningMsg (w : Rat) : String :=
  "Wind warning: " ++ ratRepr w ++ " km/h expected. Consider wind protection for tall crops."

def heavyRainMsg (h : Nat) : String :=
  "Heavy rainfall expected: " ++ natRepr h ++ " periods of heavy rain. Ensure proper drainage."

def noRainMsg : String :=
  "No rainfall expected in the next 48 hours. Consider irrigation for water-dependent crops."

/-- `generateWeatherWarnings`: the five checks push in source order
temperature-high, temperature-low, wind (danger else warning), heavy rain,
no rain. -/
def generateWeatherWarnings (fs : ForecastSummary) : List String :=
  (if fs.maxTemperature.gtR weatherThresholds.temperature.max then [highTempWarningMsg fs.maxTemperature] else [])
  ++ (if fs.minTemperature.ltR weatherThresholds.temperature.min then [lowTempWarningMsg fs.minTemperature] else [])
  ++ (if weatherThresholds.windSpeed.danger ≤ fs.maxWindSpeed then [dangerWindMsg fs.maxWindSpeed]
      else if weatherThresholds.windSpeed.warning ≤ fs.maxWindSpeed then [windWarningMsg fs.maxWindSpeed]
      else [])
  ++ (if 0 < fs.heavyRainHours then [heavyRainMsg fs.heavyRainHours] else [])
  ++ (if fs.totalRainfall = 0 ∧ fs.rainHours = 0 then [noRainMsg] else [])

/-- `validateCoordinates` (the `typeof` checks hold by typing here). -/
def validateCoordinates (lat lon : Rat) : Bool :=
  decide (-90 ≤ lat ∧ lat ≤ 90 ∧ -180 ≤ lon ∧ lon ≤ 180)

def getDefaultCoordinates : Rat × Rat := (defaultLat, defaultLon)

/-! ## `src/utils/cropUtils.js` -/

/-- `getCropInfo` (throws on an unknown crop). -/
def getCropInfo (cropType : String) : Except String CropInfo :=
  match lookupStr cropsCfg (jsToLower cropType) with
  | none => .error ("Unsupported crop type: " ++ cropType)
  | some c => .ok c

/-- `validateCropType`: a truthy crop string whose lowercase form is a key
of the crop table. -/
def validateCropType (cropType : String) : Bool :=
  cropType ≠ "" && (lookupStr cropsCfg (jsToLower cropType)).isSome

/-- `getCropSoilPh`.  The JS `crop.soilPh || default` fallback is dead for
this configuration (every crop defines `soilPh`), so it is the profile's
own range. -/
def getCropSoilPh (cropType : String) : Except String PhRange := do
  pure (← getCropInfo cropType).soilPh

/-- `getSoilPhCategory`: six closed decimal bands; `none` between bands and
outside 4.0–8.5. -/
def getSoilPhCategory (soilPh : Option Rat) : Option PhCategory :=
  match soilPh with
  | none => none
  | some ph =>
    if 4 ≤ ph ∧ ph ≤ 5 then some soilPhCategories.very_acidic
    else if mkRat 51 10 ≤ ph ∧ ph ≤ 6 then some soilPhCategories.acidic
    else if mkRat 61 10 ≤ ph ∧ ph ≤ mkRat 13 2 then some soilPhCategories.slightly_acidic
    else if mkRat 33 5 ≤ ph ∧ ph ≤ mkRat 73 10 then some soilPhCategories.neutral
    else if mkRat 37 5 ≤ ph ∧ ph ≤ mkRat 39 5 then some soilPhCategories.slightly_alkaline
    else if mkRat 79 10 ≤ ph ∧ ph ≤ mkRat 17 2 then some soilPhCategories.alkaline
    else none

structure SoilSuitability where
  suitable : Bool
  message : String
  recommendation : Option String
  cropPhRange : Option PhRange := none
  currentPh : Option Rat := none
deriving Repr, DecidableEq

/-- `isSoilPhSuitableForCrop`. -/
def isSoilPhSuitableForCrop (cropType : String) (soilPh : Option Rat) :
    Except String SoilSuitability :=
  match soilPh with
  | none =>
    .ok { suitable := true, message := "Soil pH not specified", recommendation := none }
  | some ph => do
    let cropPh ← getCropSoilPh cropType
    if cropPh.min ≤ ph ∧ ph ≤ cropPh.max then
      pure { suitable := true
             message := "Soil pH " ++ ratRepr ph ++ " is suitable for " ++ cropType
             recommendation := none
             cropPhRange := some cropPh, currentPh := some ph }
    else if ph < cropPh.min then
      pure { suitable := false
             message := "Soil pH " ++ ratRepr ph ++ " is too acidic for " ++ cropType
               ++ ". Minimum required: " ++ ratRepr cropPh.min
             recommendation := some ("Consider adding lime to raise soil pH")
             cropPhRange := some cropPh, currentPh := some ph }
    else
      pure { suitable := false
             message := "Soil pH " ++ ratRepr ph ++ " is too alkaline for " ++ cropType
               ++ ". Maximum allowed: " ++ ratRepr cropPh.max
             recommendation := some ("Consider adding sulfur or organic matter to lower soil pH")
             cropPhRange := some cropPh, currentPh := some ph }

structure GrowthStateInfo where
  state : String
  description : String
  duration : String
deriving Repr, DecidableEq

/-- `getGrowthStateInfo`: `null` for a falsy argument, an error for an
unknown stage. -/
def getGrowthStateInfo (growthState : Option String) :
    Except String (Option GrowthStateInfo) :=
  match growthState with
  | none => .ok none
  | some gs =>
    if gs = "" then .ok none
    else
      match lookupStr growthStatesCfg gs with
      | none => .error ("Invalid growth state: " ++ gs)
      | some info => .ok (some { state := gs, description := info.description, duration := info.duration })

/-! ### The Advice shape -/

structure Resource where
  resource : String
  purpose : String
  quantity : String
  cost_estimate : String
  where_to_get : String
deriving Repr, DecidableEq

structure Disease where
  disease_name : String
  symptoms : String
  risk_factors : String
  prevention : String
  treatment : String
  seasonal_risk : String
deriving Repr, DecidableEq

structure AdditionalData where
  soilPh : Option Rat := none
  growthState : Option String := none
  variety : Option String := none
deriving Repr, DecidableEq

/-- The dynamic metadata object: every field optional, mirroring JS object
spread.  The impure `generated_at` timestamp is omitted. -/
structure MetaJs where
  source : Option String := none
  weather_data : Option ForecastSummary := none
  additional_data : Option AdditionalData := none
  prompt_version : Option String := none
  location : Option (Rat × Rat) := none
  season_info : Option SeasonInfo := none
  weather_service_available : Option Bool := none
  ai_service_available : Option Bool := none
  advice_source : Option String := none
  api_version : Option String := none
deriving Repr, DecidableEq

structure Advice where
  forecast_summary : String
  season : String
  crop : String
  soil_ph_analysis : String := ""
  growth_stage_advice : String := ""
  variety_specific_tips : String := ""
  actions : List String := []
  resources_needed : List Resource := []
  possible_diseases : List Disease := []
  warnings : List String := []
  productivity_tips : List String := []
  metadata : Option MetaJs := none
deriving Repr, DecidableEq

/-! ### `generateBasicSeasonalAdvice`, split into its per-step fragments
(each step of the source appends to the shared lists; per list the final
content is the concatenation of the steps' pushes in source order). -/

structure SoilFrag where
  warnings : List String := []
  actions : List String := []
  tips : List String := []
  analysis : String := ""
deriving Repr, DecidableEq

/-- Step 1: soil-pH advice. -/
def soilStep (cropType : String) (soilPh : Option Rat) : Except String SoilFrag :=
  match soilPh with
  | none => .ok {}
  | some ph => do
    let s ← isSoilPhSuitableForCrop cropType (some ph)
    let phCategory := getSoilPhCategory (some ph)
    pure { warnings := if s.suitable then [] else [s.message]
           actions :=
             if s.suitable then []
             else match s.recommendation with
               | some r => [r]
               | none => []
           tips :=
             (if s.suitable then
               ["Soil pH " ++ ratRepr ph ++ " is optimal for " ++ cropType ++ " growth"]
              else [])
             ++ (match phCategory with
                 | some c => ["Soil category: " ++ c.description]
                 | none => [])
           analysis := "Soil pH " ++ ratRepr ph ++ " analysis: " ++ s.message }

structure GrowthFrag where
  tips : List String := []
  advice : String := ""
  actions : List String := []
deriving Repr, DecidableEq

/-- The fixed per-stage action pair of the `switch` in step 2. -/
def growthStageActions (gs : String) : List String :=
  if gs = "germination" then
    [ "Ensure consistent soil moisture for seed germination"
    , "Protect seedlings from extreme weather conditions" ]
  else if gs = "vegetative" then
    [ "Provide adequate nitrogen for leaf and stem development"
    , "Control weeds to reduce competition for nutrients" ]
  else if gs = "flowering" then
    [ "Ensure adequate water during flowering to prevent flower drop"
    , "Avoid spraying pesticides during flowering to protect pollinators" ]
  else if gs = "fruiting" then
    [ "Provide balanced nutrition for fruit development"
    , "Support heavy fruit clusters to prevent breakage" ]
  else []

/-- Step 2: growth-stage advice (guarded by JS truthiness of the stage). -/
def growthStep (growthState : Option String) : Except String GrowthFrag :=
  match growthState with
  | none => .ok {}
  | some gs =>
    if gs = "" then .ok {}
    else do
      let gi ← getGrowthStateInfo (some gs)
      match gi with
      | none => pure {}
      | some info =>
        pure { tips := ["Current growth stage: " ++ info.description ++ " (" ++ info.duration ++ ")"]
               advice := "Growth stage " ++ gs ++ ": " ++ info.description
               actions := growthStageActions gs }

structure VarietyFrag where
  tips : List String := []
  narrative : String := ""
  warnings : List String := []
  actions : List String := []
deriving Repr, DecidableEq

def lowDroughtWarningMsg : String :=
  "Low drought resistance variety selected during dry conditions"

/-- Step 3: variety advice (fires only when the variety is truthy and known
for the crop). -/
def varietyStep (crop : CropInfo) (variety : Option String) (fs : ForecastSummary) : VarietyFrag :=
  match variety with
  | none => {}
  | some v =>
    if v = "" then {}
    else
      match lookupStr crop.varieties v with
      | none => {}
      | some vi =>
        { tips := [ "Variety: " ++ vi.description
                  , "Drought resistance: " ++ vi.droughtResistance ]
          narrative := "Variety " ++ v ++ ": " ++ vi.description ++ " with "
            ++ vi.droughtResistance ++ " drought resistance"
          warnings :=
            if vi.droughtResistance = "low" ∧ fs.totalRainfall = 0 then [lowDroughtWarningMsg] else []
          actions :=
            if vi.droughtResistance = "low" ∧ fs.totalRainfall = 0 then
              ["Increase irrigation frequency for this variety"]
            else [] }

structure SeasonFrag where
  actions : List String := []
  resources : List Resource := []
deriving Repr, DecidableEq

/-- Step 4: the season `switch` — 3 actions and 2 resource records per
season; nothing for an unknown season string. -/
def seasonStep (season : String) : SeasonFrag :=
  if season = "shortDry" then
    { actions := [ "Prepare irrigation systems for water-dependent crops"
                 , "Apply mulch to retain soil moisture"
                 , "Consider drought-resistant crop varieties" ]
      resources :=
        [ { resource := "Irrigation equipment", purpose := "Water delivery to crops"
            quantity := "As needed based on field size", cost_estimate := "50,000-200,000 RWF"
            where_to_get := "Local agricultural supply stores" }
        , { resource := "Organic mulch", purpose := "Soil moisture retention"
            quantity := "2-3 tons per hectare", cost_estimate := "15,000-25,000 RWF per ton"
            where_to_get := "Local farms, agricultural cooperatives" } ] }
  else if season = "longRains" then
    { actions := [ "Ensure proper drainage systems are in place"
                 , "Plant crops that thrive in wet conditions"
                 , "Monitor for fungal diseases due to high humidity" ]
      resources :=
        [ { resource := "Drainage materials", purpose := "Prevent waterlogging"
            quantity := "As needed for field drainage", cost_estimate := "20,000-50,000 RWF"
            where_to_get := "Construction supply stores" }
        , { resource := "Fungicides", purpose := "Prevent fungal diseases"
            quantity := "2-3 applications per season", cost_estimate := "5,000-15,000 RWF per application"
            where_to_get := "Agricultural chemical suppliers" } ] }
  else if season = "longDry" then
    { actions := [ "Implement water conservation techniques"
                 , "Use shade nets for sensitive crops"
                 , "Focus on drought-tolerant crops" ]
      resources :=
        [ { resource := "Shade nets", purpose := "Protect crops from excessive sun"
            quantity := "Cover entire field area", cost_estimate := "30,000-80,000 RWF per hectare"
            where_to_get := "Agricultural supply stores" }
        , { resource := "Water storage containers", purpose := "Store collected rainwater"
            quantity := "1000-5000 liters capacity", cost_estimate := "25,000-100,000 RWF"
            where_to_get := "Hardware stores, agricultural suppliers" } ] }
  else if season = "shortRains" then
    { actions := [ "Take advantage of moisture for planting"
                 , "Prepare for the upcoming dry season"
                 , "Harvest crops before heavy rains" ]
      resources :=
        [ { resource := "Planting tools", purpose := "Efficient crop planting"
            quantity := "1 set per farmer", cost_estimate := "15,000-30,000 RWF"
            where_to_get := "Agricultural tool stores" }
        , { resource := "Harvesting equipment", purpose := "Timely crop harvesting"
            quantity := "As needed for crop type", cost_estimate := "10,000-50,000 RWF"
            where_to_get := "Agricultural equipment suppliers" } ] }
  else {}

structure WeatherFrag where
  actions : List String := []
  resources : List Resource := []
deriving Repr, DecidableEq

/-- Step 5: the three independent weather checks (0–3 may fire). -/
def weatherStep (fs : ForecastSummary) : WeatherFrag :=
  { actions :=
      (if fs.totalRainfall = 0 then
        [ "Schedule irrigation for water-dependent crops"
        , "Check soil moisture levels regularly" ]
       else [])
      ++ (if 0 < fs.heavyRainHours then
        [ "Secure any loose structures or equipment"
        , "Ensure drainage channels are clear" ]
       else [])
      ++ (if weatherThresholds.windSpeed.warning ≤ fs.maxWindSpeed then
        [ "Provide wind protection for tall crops"
        , "Secure trellises and support structures" ]
       else [])
    resources :=
      (if fs.totalRainfall = 0 then
        [ { resource := "Soil moisture meter", purpose := "Monitor soil water content"
            quantity := "1 per field", cost_estimate := "8,000-15,000 RWF"
            where_to_get := "Agricultural supply stores" } ]
       else [])
      ++ (if 0 < fs.heavyRainHours then
        [ { resource := "Drainage tools", purpose := "Clear drainage channels"
            quantity := "1 set per field", cost_estimate := "5,000-12,000 RWF"
            where_to_get := "Hardware stores" } ]
       else [])
      ++ (if weatherThresholds.windSpeed.warning ≤ fs.maxWindSpeed then
        [ { resource := "Wind barriers", purpose := "Protect crops from wind damage"
            quantity := "Perimeter of field", cost_estimate := "20,000-60,000 RWF per hectare"
            where_to_get := "Agricultural supply stores" } ]
       else []) }

structure CropFrag where
  tips : List String := []
  resources : List Resource := []
  diseases : List Disease := []
deriving Repr, DecidableEq

/-- Step 6: the crop `switch` — 3 tips, 2 resources, 2 disease records; each
disease's seasonal risk is its own hardcoded function of the season. -/
def cropStep (cropType season : String) : CropFrag :=
  let c := jsToLower cropType
  if c = "maize" then
    { tips := [ "Plant in rows with proper spacing (75cm between rows)"
              , "Apply nitrogen fertilizer in split applications"
              , "Control weeds early in the growing season" ]
      resources :=
        [ { resource := "Nitrogen fertilizer (NPK)", purpose := "Provide essential nutrients for growth"
            quantity := "200-300 kg per hectare", cost_estimate := "80,000-120,000 RWF per hectare"
            where_to_get := "Agricultural cooperatives, fertilizer suppliers" }
        , { resource := "Weed control herbicides", purpose := "Control competing weeds"
            quantity := "2-3 applications per season", cost_estimate := "15,000-25,000 RWF per application"
            where_to_get := "Agricultural chemical suppliers" } ]
      diseases :=
        [ { disease_name := "Maize Lethal Necrosis"
            symptoms := "Yellowing leaves, stunted growth, poor grain development"
            risk_factors := "High humidity, poor drainage, infected seeds"
            prevention := "Use certified seeds, maintain field hygiene, proper spacing"
            treatment := "Remove infected plants, apply fungicides if early detected"
            seasonal_risk := if season = "longRains" then "High" else "Medium" }
        , { disease_name := "Common Rust"
            symptoms := "Reddish-brown pustules on leaves, reduced photosynthesis"
            risk_factors := "High humidity, dense planting, poor air circulation"
            prevention := "Plant resistant varieties, maintain proper spacing"
            treatment := "Apply fungicides, remove infected plant debris"
            seasonal_risk := if season = "longRains" then "High" else "Low" } ] }
  else if c = "beans" then
    { tips := [ "Use trellises for climbing varieties"
              , "Plant in well-drained soil with good organic matter"
              , "Harvest pods when they are young and tender" ]
      resources :=
        [ { resource := "Trellis materials", purpose := "Support climbing bean varieties"
            quantity := "Poles and strings for entire field", cost_estimate := "25,000-50,000 RWF per hectare"
            where_to_get := "Local hardware stores, agricultural suppliers" }
        , { resource := "Organic compost", purpose := "Improve soil fertility and structure"
            quantity := "5-10 tons per hectare", cost_estimate := "20,000-40,000 RWF per ton"
            where_to_get := "Local farms, agricultural cooperatives" } ]
      diseases :=
        [ { disease_name := "Bean Anthracnose"
            symptoms := "Dark, sunken lesions on pods and stems"
            risk_factors := "Wet weather, poor air circulation, infected seeds"
            prevention := "Use disease-free seeds, crop rotation, proper spacing"
            treatment := "Remove infected plants, apply copper-based fungicides"
            seasonal_risk := if season = "longRains" then "High" else "Medium" }
        , { disease_name := "Bean Rust"
            symptoms := "Orange-brown pustules on leaves, defoliation"
            risk_factors := "High humidity, dense planting, poor drainage"
            prevention := "Plant resistant varieties, maintain field hygiene"
            treatment := "Apply fungicides, remove infected debris"
            seasonal_risk := if season = "longRains" then "High" else "Low" } ] }
  else if c = "potatoes" then
    { tips := [ "Plant in loose, well-drained soil"
              , "Hill soil around plants as they grow"
              , "Control potato beetles and other pests" ]
      resources :=
        [ { resource := "Potato hilling tools", purpose := "Build soil mounds around potato plants"
            quantity := "1 set per farmer", cost_estimate := "8,000-15,000 RWF"
            where_to_get := "Agricultural tool stores" }
        , { resource := "Insecticides", purpose := "Control potato beetles and other pests"
            quantity := "2-3 applications per season", cost_estimate := "12,000-20,000 RWF per application"
            where_to_get := "Agricultural chemical suppliers" } ]
      diseases :=
        [ { disease_name := "Late Blight"
            symptoms := "Dark lesions on leaves and stems, rapid plant death"
            risk_factors := "Cool, wet weather, poor air circulation"
            prevention := "Plant resistant varieties, proper spacing, avoid overhead irrigation"
            treatment := "Apply copper-based fungicides, remove infected plants"
            seasonal_risk := if season = "longRains" then "High" else "Low" }
        , { disease_name := "Early Blight"
            symptoms := "Brown spots with concentric rings on leaves"
            risk_factors := "Warm, humid weather, poor nutrition"
            prevention := "Maintain plant health, proper fertilization, crop rotation"
            treatment := "Apply fungicides, remove infected leaves"
            seasonal_risk := if season = "longRains" then "Medium" else "Low" } ] }
  else if c = "bananas" then
    { tips := [ "Provide regular watering and fertilization"
              , "Remove suckers to maintain single stem"
              , "Support heavy bunches with props" ]
      resources :=
        [ { resource := "Banana props", purpose := "Support heavy fruit bunches"
            quantity := "1 prop per bearing plant", cost_estimate := "2,000-5,000 RWF each"
            where_to_get := "Local craftsmen, agricultural suppliers" }
        , { resource := "Potassium fertilizer", purpose := "Essential for banana fruit development"
            quantity := "300-500 kg per hectare", cost_estimate := "90,000-150,000 RWF per hectare"
            where_to_get := "Agricultural cooperatives, fertilizer suppliers" } ]
      diseases :=
        [ { disease_name := "Panama Disease (Fusarium Wilt)"
            symptoms := "Yellowing leaves, wilting, plant death"
            risk_factors := "Infected soil, poor drainage, monoculture"
            prevention := "Use disease-free planting material, crop rotation, good drainage"
            treatment := "Remove infected plants, soil fumigation if severe"
            seasonal_risk := if season = "longRains" then "High" else "Medium" }
        , { disease_name := "Black Sigatoka"
            symptoms := "Dark streaks on leaves, reduced fruit quality"
            risk_factors := "High humidity, poor air circulation, dense planting"
            prevention := "Maintain proper spacing, remove infected leaves, fungicide application"
            treatment := "Apply systemic fungicides, remove infected leaves"
            seasonal_risk := if season = "longRains" then "High" else "Medium" } ] }
  else {}

/-- The opening narrative of the basic advice. -/
def basicForecastNarrative (fs : ForecastSummary) : String :=
  "Weather forecast for next 48 hours: " ++ ratRepr fs.totalRainfall ++ "mm rainfall, "
    ++ fs.minTemperature.toStr ++ "°C to " ++ fs.maxTemperature.toStr ++ "°C, wind up to "
    ++ ratRepr fs.maxWindSpeed ++ " km/h"

/-- `generateBasicSeasonalAdvice`: the rule-based advisor.  Step 7 appends
the summary's own `warnings` last (the JS guard `if (forecastSummary.warnings)`
holds for every present array, even the empty one, which contributes
nothing). -/
def generateBasicSeasonalAdvice (cropType season : String) (forecastSummary : ForecastSummary)
    (additionalData : AdditionalData := {}) : Except String Advice :=
  match getCropInfo cropType with
  | .error e => .error e
  | .ok crop =>
    match soilStep cropType additionalData.soilPh with
    | .error e => .error e
    | .ok sf =>
      match growthStep additionalData.growthState with
      | .error e => .error e
      | .ok gf =>
        let vf := varietyStep crop additionalData.variety forecastSummary
        let sef := seasonStep season
        let wf := weatherStep forecastSummary
        let cf := cropStep cropType season
        .ok { forecast_summary := basicForecastNarrative forecastSummary
              season := season
              crop := cropType
              soil_ph_analysis := sf.analysis
              growth_stage_advice := gf.advice
              variety_specific_tips := vf.narrative
              actions := sf.actions ++ gf.actions ++ vf.actions ++ sef.actions ++ wf.actions
              resources_needed := sef.resources ++ wf.resources ++ cf.resources
              possible_diseases := cf.diseases
              warnings := sf.warnings ++ vf.warnings ++ forecastSummary.warnings
              productivity_tips := sf.tips ++ gf.tips ++ vf.tips ++ cf.tips
              metadata := none }

/-! ## `src/services/geminiService.js` — response parsing

`JSON.parse` is embedded as a fuel-indexed recursive-descent parser over the
character list of the extracted substring. -/

inductive Json where
  | null
  | boolean (b : Bool)
  | num (q : Rat)
  | str (s : String)
  | arr (elems : List Json)
  | obj (fields : List (String × Json))
deriving Repr

def quoteChar : Char := Char.ofNat 34

def isWsChar (c : Char) : Bool := c = ' ' || c = '\n' || c = '\t' || c = '\r'

def skipWs : List Char → List Char
  | c :: cs => if isWsChar c then skipWs cs else c :: cs
  | [] => []

def hexVal (c : Char) : Option Nat :=
  if '0' ≤ c ∧ c ≤ '9' then some (c.toNat - 48)
  else if 'a' ≤ c ∧ c ≤ 'f' then some (c.toNat - 87)
  else if 'A' ≤ c ∧ c ≤ 'F' then some (c.toNat - 55)
  else none

def isDigitChar (c : Char) : Bool := '0' ≤ c && c ≤ '9'

def takeDigits : List Char → List Char × List Char
  | c :: cs =>
    if isDigitChar c then
      let (ds, rest) := takeDigits cs
      (c :: ds, rest)
    else ([], c :: cs)
  | [] => ([], [])

def digitsToNat (ds : List Char) : Nat := ds.foldl (fun a c => a * 10 + (c.toNat - 48)) 0

/-- Parse a JSON number literal from the head of the input. -/
def parseNumber (cs : List Char) : Option (Rat × List Char) :=
  let (neg, cs1) :=
    match cs with
    | c :: rest => if c = '-' then (true, rest) else (false, cs)
    | [] => (false, cs)
  let (ints, cs2) := takeDigits cs1
  if ints = [] then none
  else
    let (fracDigits, cs3) :=
      match cs2 with
      | c :: rest =>
        if c = '.' then
          let (fs, rest2) := takeDigits rest
          if fs = [] then (([] : List Char), cs2) else (fs, rest2)
        else (([] : List Char), cs2)
      | [] => (([] : List Char), cs2)
    -- mantissa = int-part digits followed by fraction digits, scaled down
    let mantissa : Rat :=
      Rat.divInt (digitsToNat (ints ++ fracDigits) : Int) ((10 : Int) ^ fracDigits.length)
    let (q, cs4) :=
      match cs3 with
      | c :: rest =>
        if c = 'e' ∨ c = 'E' then
          let (expNeg, rest1) :=
            match rest with
            | d :: r2 => if d = '-' then (true, r2) else if d = '+' then (false, r2) else (false, rest)
            | [] => (false, rest)
          let (es, rest2) := takeDigits rest1
          if es = [] then (mantissa, cs3)
          else
            let scale : Rat :=
              if expNeg then mkRat 1 ((10 : Nat) ^ digitsToNat es)
              else mkRat ((10 : Nat) ^ digitsToNat es : Nat) 1
            (qMul mantissa scale, rest2)
        else (mantissa, cs3)
      | [] => (mantissa, cs3)
    some (if neg then -q else q, cs4)

/-- Parse the body of a string literal (the opening quote already consumed). -/
def parseStringBody : Nat → List Char → String → Option (String × List Char)
  | 0, _, _ => none
  | _ + 1, [], _ => none
  | fuel + 1, c :: cs, acc =>
    if c = quoteChar then some (acc, cs)
    else if c = '\\' then
      match cs with
      | [] => none
      | e :: cs2 =>
        if e = quoteChar then parseStringBody fuel cs2 (acc.push quoteChar)
        else if e = '\\' then parseStringBody fuel cs2 (acc.push '\\')
        else if e = '/' then parseStringBody fuel cs2 (acc.push '/')
        else if e = 'n' then parseStringBody fuel cs2 (acc.push '\n')
        else if e = 't' then parseStringBody fuel cs2 (acc.push '\t')
        else if e = 'r' then parseStringBody fuel cs2 (acc.push '\r')
        else if e = 'b' then parseStringBody fuel cs2 (acc.push (Char.ofNat 8))
        else if e = 'f' then parseStringBody fuel cs2 (acc.push (Char.ofNat 12))
        else if e = 'u' then
          match cs2 with
          | h1 :: h2 :: h3 :: h4 :: cs3 =>
            match hexVal h1, hexVal h2, hexVal h3, hexVal h4 with
            | some a, some b, some c3, some d =>
              parseStringBody fuel cs3 (acc.push (Char.ofNat (((a * 16 + b) * 16 + c3) * 16 + d)))
            | _, _, _, _ => none
          | _ => none
        else none
    else parseStringBody fuel cs (acc.push c)

mutual

def parseValue : Nat → List Char → Option (Json × List Char)
  | 0, _ => none
  | fuel + 1, cs =>
    match skipWs cs with
    | [] => none
    | c :: rest =>
      if c = quoteChar then (parseStringBody fuel rest "").map (fun p => (.str p.1, p.2))
      else if c = leftBrace then
        match skipWs rest with
        | d :: r2 => if d = rightBrace then some (.obj [], r2) else parseObjLoop fuel (skipWs rest) []
        | [] => none
      else if c = '[' then
        match skipWs rest with
        | d :: r2 => if d = ']' then some (.arr [], r2) else parseArrLoop fuel (skipWs rest) []
        | [] => none
      else if c = 't' then
        match rest with
        | 'r' :: 'u' :: 'e' :: r => some (.boolean true, r)
        | _ => none
      else if c = 'f' then
        match rest with
        | 'a' :: 'l' :: 's' :: 'e' :: r => some (.boolean false, r)
        | _ => none
      else if c = 'n' then
        match rest with
        | 'u' :: 'l' :: 'l' :: r => some (.null, r)
        | _ => none
      else (parseNumber (c :: rest)).map (fun p => (.num p.1, p.2))

def parseArrLoop : Nat → List Char → List Json → Option (Json × List Char)
  | 0, _, _ => none
  | fuel + 1, cs, acc =>
    match parseValue fuel cs with
    | none => none
    | some (v, cs2) =>
      match skipWs cs2 with
      | c :: r =>
        if c = ',' then parseArrLoop fuel r (acc ++ [v])
        else if c = ']' then some (.arr (acc ++ [v]), r)
        else none
      | [] => none

def parseObjLoop : Nat → List Char → List (String × Json) → Option (Json × List Char)
  | 0, _, _ => none
  | fuel + 1, cs, acc =>
    match skipWs cs with
    | c :: r =>
      if c = quoteChar then
        match parseStringBody fuel r "" with
        | none => none
        | some (k, cs2) =>
          match skipWs cs2 with
          | d :: r2 =>
            if d = ':' then
              match parseValue fuel r2 with
              | none => none
              | some (v, cs3) =>
                match skipWs cs3 with
                | e :: r3 =>
                  if e = ',' then parseObjLoop fuel r3 (acc ++ [(k, v)])
                  else if e = rightBrace then some (.obj (acc ++ [(k, v)]), r3)
                  else none
                | [] => none
            else none
          | [] => none
      else none
    | [] => none

end

/-- `JSON.parse`: parse a full document, allowing trailing whitespace only. -/
def jsonParse (s : String) : Option Json :=
  match parseValue (4 * s.data.length + 16) s.data with
  | some (v, rest) => if skipWs rest = [] then some v else none
  | none => none

/-- JS truthiness of a parsed JSON value. -/
def Json.truthy : Json → Bool
  | .null => false
  | .boolean b => b
  | .num q => decide (q ≠ 0)
  | .str s => decide (s ≠ "")
  | .arr _ => true
  | .obj _ => true

/-- Property access on a parsed object: with duplicate keys, `JSON.parse`
keeps the last occurrence. -/
def jsonGet (j : Json) (k : String) : Option Json :=
  match j with
  | .obj fs => lookupStr fs.reverse k
  | _ => none

mutual

/-- Rendering of a parsed value when the code stores it into a string-typed
slot.  A string value is kept verbatim; other values get a non-empty
rendering (the JS engine would keep the raw dynamic value, which no claim
reads beyond truthiness). -/
def jsonRender : Json → String
  | .null => "null"
  | .boolean true => "true"
  | .boolean false => "false"
  | .num q => ratRepr q
  | .str s => s
  | .arr xs => "[" ++ jsonRenderSep xs ++ "]"
  | .obj fs => String.singleton leftBrace ++ jsonRenderFields fs ++ String.singleton rightBrace

def jsonRenderSep : List Json → String
  | [] => ""
  | [x] => jsonRender x
  | x :: y :: xs => jsonRender x ++ "," ++ jsonRenderSep (y :: xs)

def jsonRenderFields : List (String × Json) → String
  | [] => ""
  | [(k, v)] => k ++ ":" ++ jsonRender v
  | (k, v) :: f :: fs => k ++ ":" ++ jsonRender v ++ "," ++ jsonRenderFields (f :: fs)

end

/-- First index of a character, JS `indexOf` (absent encoded as `none`). -/
def jsIndexOfFirst (cs : List Char) (c : Char) : Option Nat :=
  match cs with
  | [] => none
  | d :: rest => if d = c then some 0 else (jsIndexOfFirst rest c).map (fun i => i + 1)

/-- Last index of a character, JS `lastIndexOf`. -/
def jsIndexOfLast (cs : List Char) (c : Char) : Option Nat :=
  (jsIndexOfFirst cs.reverse c).map (fun i => cs.length - 1 - i)

/-- JS `String.prototype.substring`: clamps both indices to the length and
swaps them when start exceeds end. -/
def jsSubstringIdx (cs : List Char) (a b : Nat) : List Char :=
  let a1 := min a cs.length
  let b1 := min b cs.length
  let lo := min a1 b1
  let hi := max a1 b1
  (cs.drop lo).take (hi - lo)

/-- The extraction step of `parseAIResponse`: the substring from the first
left brace to the last right brace, or `none` when either is absent. -/
def extractJsonSpan (s : String) : Option String :=
  match jsIndexOfFirst s.data leftBrace, jsIndexOfLast s.data rightBrace with
  | some jsonStart, some jsonEnd => some (String.mk (jsSubstringIdx s.data jsonStart (jsonEnd + 1)))
  | _, _ => none

/-- The error kinds of `parseAIResponse` (the source encodes the kind in the
message of the rethrown error). -/
inductive AiParseError where
  | noJsonFound
  | malformed
  | missingFields (fields : List String)
deriving Repr, DecidableEq

def requiredAdviceFields : List String :=
  ["forecast_summary", "season", "crop", "actions", "warnings", "productivity_tips"]

/-- `!advice[field]` on the parsed object: present and truthy. -/
def fieldTruthy (j : Json) (k : String) : Bool :=
  match jsonGet j k with
  | some v => v.truthy
  | none => false

def getStringField (j : Json) (k : String) : String :=
  match jsonGet j k with
  | some v => jsonRender v
  | none => ""

/-- An array-typed field: kept when it is an array, coerced to `[]`
otherwise (the defensive `Array.isArray` normalization). -/
def getArrField (j : Json) (k : String) : List String :=
  match jsonGet j k with
  | some (.arr xs) => xs.map jsonRender
  | _ => []

/-- `GeminiService.parseAIResponse`.  The `resources_needed` and
`possible_diseases` fields are passed through untyped by the source and are
read by no claim; the typed model leaves them empty. -/
def parseAIResponse (aiResponse : String) (fs : ForecastSummary) (_season _cropType : String)
    (ad : AdditionalData) : Except AiParseError Advice :=
  match extractJsonSpan aiResponse with
  | none => .error .noJsonFound
  | some jsonString =>
    match jsonParse jsonString with
    | none => .error .malformed
    | some j =>
      let missing := requiredAdviceFields.filter (fun f => !(fieldTruthy j f))
      if missing ≠ [] then .error (.missingFields missing)
      else
        .ok { forecast_summary := getStringField j "forecast_summary"
              season := getStringField j "season"
              crop := getStringField j "crop"
              soil_ph_analysis := getStringField j "soil_ph_analysis"
              growth_stage_advice := getStringField j "growth_stage_advice"
              variety_specific_tips := getStringField j "variety_specific_tips"
              actions := getArrField j "actions"
              warnings := getArrField j "warnings"
              productivity_tips := getArrField j "productivity_tips"
              resources_needed := []
              possible_diseases := []
              metadata := some { source := some "gemini_ai", weather_data := some fs
                                 additional_data := some ad, prompt_version := some "2.0" } }

/-- Message text of the rethrown parse error. -/
def aiErrorMessage : AiParseError → String
  | .noJsonFound => "No JSON found in AI response"
  | .malformed => "JSON.parse: unexpected token"
  | .missingFields fields =>
    "Missing required fields in AI response: " ++ String.intercalate ", " fields

/-! ## `src/services/adviceService.js` — the orchestrator

The wall clock and the two outbound HTTP calls are environment inputs:
`hasWeatherKey`/`hasGeminiKey` model the presence of the API keys (the
services' `isAvailable()`), `weatherOutcome` is the result of the forecast
HTTP call when the weather key is configured, and `aiOutcome` is the raw
text of the AI completion (or its transport error) when the Gemini key is
configured. -/

structure Env where
  hasWeatherKey : Bool
  hasGeminiKey : Bool
  currentMonth : Nat
  weatherOutcome : Except String ForecastData
  aiOutcome : Except String String
deriving Repr

/-- The request options object. -/
structure Options where
  lat : Option Rat := none
  lon : Option Rat := none
  crop : Option String := none
  soilPh : Option Rat := none
  growthState : Option String := none
  variety : Option String := none
  useAI : Option Bool := none
deriving Repr

/-- `WeatherService.getForecast`: throws when the key is absent, otherwise
the HTTP outcome. -/
def getForecast (env : Env) : Except String ForecastData :=
  if env.hasWeatherKey then env.weatherOutcome
  else .error ("OpenWeather API key not configured")

/-- `GeminiService.generateAdvice`: throws when the key is absent or the
call fails, otherwise parses the returned text. -/
def geminiGenerateAdvice (env : Env) (fs : ForecastSummary) (season cropType : String)
    (ad : AdditionalData) : Except String Advice :=
  if env.hasGeminiKey then
    match env.aiOutcome with
    | .error e => .error e
    | .ok text =>
      match parseAIResponse text fs season cropType ad with
      | .ok a => .ok a
      | .error pe => .error ("Failed to parse AI response: " ++ aiErrorMessage pe)
  else .error ("Gemini API key not configured")

/-- JS truthiness of an optional numeric request field (`lat && lon`):
present and non-zero. -/
def truthyNum : Option Rat → Bool
  | some q => decide (q ≠ 0)
  | none => false

/-- `AdviceService.validateAndSetCoordinates`: the guard is the literal JS
test `if (lat && lon)`, so a zero coordinate falls through to the Kigali
default. -/
def validateAndSetCoordinates (lat lon : Option Rat) : Except String (Rat × Rat) :=
  if truthyNum lat && truthyNum lon then
    match lat, lon with
    | some la, some lo =>
      if validateCoordinates la lo then .ok (la, lo)
      else .error ("Invalid coordinates provided")
    | _, _ => .error ("Invalid coordinates provided")
  else .ok getDefaultCoordinates

def validGrowthStates : List String := ["germination", "vegetative", "flowering", "fruiting"]

/-- `AdviceService.validateAdditionalData`: three independent checks, first
failure wins; falsy (absent or empty-string) optional fields are skipped. -/
def validateAdditionalData (options : Options) : Except String AdditionalData :=
  match options.soilPh with
  | some ph =>
    if ph < 4 ∨ mkRat 17 2 < ph then .error ("Soil pH must be a number between 4.0 and 8.5")
    else validateGrowthPart options { soilPh := some ph }
  | none => validateGrowthPart options {}
where
  validateGrowthPart (options : Options) (acc : AdditionalData) : Except String AdditionalData :=
    match options.growthState with
    | some gs =>
      if gs = "" then validateVarietyPart options acc
      else if jsToLower gs ∈ validGrowthStates then
        validateVarietyPart options { acc with growthState := some (jsToLower gs) }
      else
        .error ("Invalid growth state. Must be one of: " ++ String.intercalate ", " validGrowthStates)
    | none => validateVarietyPart options acc
  validateVarietyPart (options : Options) (acc : AdditionalData) : Except String AdditionalData :=
    match options.variety with
    | some v =>
      if v = "" then .ok acc
      else if v.trim = "" then .error ("Variety must be a non-empty string")
      else .ok { acc with variety := some v.trim }
    | none => .ok acc

/-- The fixed substitute summary built in the `catch` of the weather stage. -/
def neutralForecastSummary (lat lon : Rat) : ForecastSummary :=
  { totalRainfall := 0
    maxTemperature := .fin 25
    minTemperature := .fin 15
    maxWindSpeed := 10
    rainHours := 0
    heavyRainHours := 0
    windHours := 0
    conditions := ["unknown"]
    forecastPeriod := "48 hours"
    location := { lat := lat, lon := lon, name := "Unknown" }
    warnings := [] }

/-- The `try` block of the weather stage: fetch, then summarize. -/
def weatherStepResult (env : Env) : Except String ForecastSummary :=
  match getForecast env with
  | .error e => .error e
  | .ok d => summarizeForecast (some d)

/-- The post-validation tail of `AdviceService.generateAdvice`: season
lookup, the weather `try`/`catch`, the source decision, and the metadata
stamp.  Factored out of `generateAdviceCore` with the validated values in
scope. -/
def adviceTail (env : Env) (lat lon : Rat) (cropType : String)
    (additionalData : AdditionalData) (useAIopt : Option Bool) : Except String Advice :=
  let seasonInfo := detectCurrentSeason env.currentMonth
  let wres :=
    match weatherStepResult env with
    | .ok s => (s, generateWeatherWarnings s)
    | .error _ => (neutralForecastSummary lat lon, ([] : List String))
  let forecastSummary := { wres.1 with warnings := wres.2 }
  let useAI := useAIopt ≠ some false ∧ env.hasGeminiKey
  let adviceE :=
    if useAI then
      match geminiGenerateAdvice env forecastSummary seasonInfo.season cropType additionalData with
      | .ok a =>
        .ok (if 0 < wres.2.length then { a with warnings := wres.2 ++ a.warnings } else a)
      | .error _ =>
        generateBasicSeasonalAdvice cropType seasonInfo.season forecastSummary additionalData
    else
      generateBasicSeasonalAdvice cropType seasonInfo.season forecastSummary additionalData
  match adviceE with
  | .error e => .error e
  | .ok advice =>
    .ok { advice with
          metadata := some { advice.metadata.getD {} with
            location := some (lat, lon)
            season_info := some seasonInfo
            weather_service_available := some env.hasWeatherKey
            ai_service_available := some env.hasGeminiKey
            advice_source := some (if useAI then "gemini_ai" else "basic_seasonal")
            additional_data := some additionalData
            api_version := some "1.0.0" } }

/-- `AdviceService.generateAdvice` before the outer catch rewraps the
message. -/
def generateAdviceCore (env : Env) (options : Options) : Except String Advice :=
  match validateAndSetCoordinates options.lat options.lon with
  | .error e => .error e
  | .ok (lat, lon) =>
    match options.crop with
    | none => .error ("Crop type is required")
    | some cropRaw =>
      if cropRaw = "" then .error ("Crop type is required")
      else
        let cropType := jsToLower cropRaw
        if !validateCropType cropType then
          .error ("Unsupported crop type: " ++ cropType
            ++ ". Supported crops: maize, beans, potatoes, bananas")
        else
          match validateAdditionalData options with
          | .error e => .error e
          | .ok additionalData => adviceTail env lat lon cropType additionalData options.useAI

/-- `AdviceService.generateAdvice` with the outer catch's rewrapping. -/
def generateAdvice (env : Env) (options : Options) : Except String Advice :=
  match generateAdviceCore env options with
  | .ok a => .ok a
  | .error e => .error ("Failed to generate advice: " ++ e)

/-- The `metadata.advice_source` of a returned advice. -/
def metaAdviceSource (a : Advice) : Option String :=
  a.metadata.bind (fun m => m.advice_source)

/-- The `metadata.weather_service_available` flag of a returned advice. -/
def metaWeatherAvailable (a : Advice) : Option Bool :=
  a.metadata.bind (fun m => m.weather_service_available)

/-- The gemini-only `metadata.source` tag (set by `parseAIResponse`,
surviving the orchestrator's spread): `none` exactly when the rule-based
advisor built the advice. -/
def metaInnerSource (a : Advice) : Option String :=
  a.metadata.bind (fun m => m.source)

/-! ## Concrete scenarios used by the claim theorems -/

def cityKigali : CityInfo := { lat := mkRat (-19441) 10000, lon := mkRat 300619 10000, name := "Kigali" }

/-- Environment where the AI generator is configured but returns unparsable
text, and the weather provider fails. -/
def envAiFail : Env :=
  { hasWeatherKey := false, hasGeminiKey := true, currentMonth := 7
    weatherOutcome := .error ("network error")
    aiOutcome := .ok ("The weather is nice today.") }

/-- A request for maize with defaults everywhere else. -/
def optsMaize : Options := { crop := some "maize" }

/-- Environment where the weather key is configured but the forecast call
fails, and no AI key is configured. -/
def envWeatherFail : Env :=
  { hasWeatherKey := true, hasGeminiKey := false, currentMonth := 1
    weatherOutcome := .error ("OpenWeather API request timeout")
    aiOutcome := .error ("unused") }

/-- A summary whose maximum temperature breaches the 35°C threshold and
which predicts no rain at all. -/
def fsHot36 : ForecastSummary :=
  { neutralForecastSummary defaultLat defaultLon with maxTemperature := .fin 36 }

/-- The synthetic series with precipitation values 0, 20, 0, 0. -/
def c6pts : List ForecastPoint :=
  [ { temp := 290, rain := some 0, windSpeed := some 3 }
  , { temp := 295, rain := some 20, windSpeed := some 5 }
  , { temp := 288, rain := some 0, windSpeed := none }
  , { temp := 291, rain := some 0, windSpeed := some 2 } ]

def c6payload : ForecastData := { list := some c6pts, city := some cityKigali }

/-- The spec's parser test input: noise, a six-field JSON object, trailing
text. -/
def c8input : String :=
  "noise \x7b\"forecast_summary\":\"x\",\"season\":\"longDry\",\"crop\":\"maize\",\"actions\":[],\"warnings\":[],\"productivity_tips\":[]\x7d trailing"

/-- The braced span of `c8input`. -/
def c8span : String :=
  "\x7b\"forecast_summary\":\"x\",\"season\":\"longDry\",\"crop\":\"maize\",\"actions\":[],\"warnings\":[],\"productivity_tips\":[]\x7d"

def c8fs : ForecastSummary := neutralForecastSummary 0 0

/-! ## Helper lemmas -/

theorem natDigits_ne_nil (n : Nat) : natDigits n ≠ [] := by
  show natDigitsAux (n + 1) n ≠ []
  rw [natDigitsAux]
  split
  · simp
  · simp

theorem string_data_append (s t : String) : (s ++ t).data = s.data ++ t.data := rfl

theorem natRepr_ne_empty (n : Nat) : natRepr n ≠ "" := by
  intro h
  have hd : (natRepr n).data = [] := by rw [h]
  exact natDigits_ne_nil n hd

theorem intRepr_ne_empty (i : Int) : intRepr i ≠ "" := by
  cases i with
  | ofNat n => exact natRepr_ne_empty n
  | negSucc n =>
    intro h
    have hd : (intRepr (Int.negSucc n)).data = [] := by rw [h]
    rw [show intRepr (Int.negSucc n) = "-" ++ natRepr (n + 1) from rfl,
      string_data_append] at hd
    simp at hd

theorem ratRepr_ne_empty (q : Rat) : ratRepr q ≠ "" := by
  intro h
  have hd : (ratRepr q).data = [] := by rw [h]
  rw [show ratRepr q = intRepr q.num ++ (if q.den = 1 then "" else "/" ++ natRepr q.den) from rfl,
    string_data_append, List.append_eq_nil] at hd
  have : (intRepr q.num).data = [] := hd.1
  apply intRepr_ne_empty q.num
  cases hi : intRepr q.num with
  | mk l => rw [hi] at this; simp at this; rw [this]

/-- A truthy JSON value renders to a non-empty string. -/
theorem jsonRender_truthy_ne_empty (j : Json) (h : j.truthy = true) : jsonRender j ≠ "" := by
  cases j with
  | null => simp [Json.truthy] at h
  | boolean b =>
    cases b with
    | false => simp [Json.truthy] at h
    | true => intro he; simp [jsonRender] at he
  | num q => exact ratRepr_ne_empty q
  | str s => simpa [Json.truthy] using h
  | arr xs =>
    intro he
    have hd : (jsonRender (Json.arr xs)).data = [] := by rw [he]
    rw [show jsonRender (Json.arr xs) = "[" ++ jsonRenderSep xs ++ "]" from rfl] at hd
    rw [string_data_append, string_data_append] at hd
    simp at hd
  | obj fs =>
    intro he
    have hd : (jsonRender (Json.obj fs)).data = [] := by rw [he]
    rw [show jsonRender (Json.obj fs)
        = String.singleton leftBrace ++ jsonRenderFields fs ++ String.singleton rightBrace from rfl] at hd
    rw [string_data_append, string_data_append] at hd
    simp [String.singleton] at hd

/-- Character membership in `x ∈ (if c then [y] else [])`. -/
theorem mem_if_singleton {α : Type} (c : Prop) [Decidable c] (x y : α) :
    (x ∈ (if c then [y] else [])) ↔ (c ∧ x = y) := by
  split <;> simp_all

/-- Bridge: the kernel-computable addition is rational addition. -/
theorem qAdd_eq (a b : Rat) : qAdd a b = a + b := by
  have ha : ((a.den : Int) : Rat) ≠ 0 := by
    push_cast
    exact_mod_cast a.den_nz
  have hb : ((b.den : Int) : Rat) ≠ 0 := by
    push_cast
    exact_mod_cast b.den_nz
  rw [qAdd, Rat.divInt_eq_div]
  push_cast
  conv_rhs => rw [← Rat.num_div_den a, ← Rat.num_div_den b]
  field_simp <;> ring

/-- Bridge: the kernel-computable subtraction is rational subtraction. -/
theorem qSub_eq (a b : Rat) : qSub a b = a - b := by
  have ha : ((a.den : Int) : Rat) ≠ 0 := by
    push_cast
    exact_mod_cast a.den_nz
  have hb : ((b.den : Int) : Rat) ≠ 0 := by
    push_cast
    exact_mod_cast b.den_nz
  rw [qSub, Rat.divInt_eq_div]
  push_cast
  conv_rhs => rw [← Rat.num_div_den a, ← Rat.num_div_den b]
  field_simp <;> ring

/-- Bridge: the kernel-computable multiplication is rational
multiplication. -/
theorem qMul_eq (a b : Rat) : qMul a b = a * b := by
  have ha : ((a.den : Int) : Rat) ≠ 0 := by
    push_cast
    exact_mod_cast a.den_nz
  have hb : ((b.den : Int) : Rat) ≠ 0 := by
    push_cast
    exact_mod_cast b.den_nz
  rw [qMul, Rat.divInt_eq_div]
  push_cast
  conv_rhs => rw [← Rat.num_div_den a, ← Rat.num_div_den b]
  field_simp

/-- Two strings differing within their first four characters differ. -/
theorem ne_of_data_take4 {s t : String} {a b : List Char}
    (hs : s.data.take 4 = a) (ht : t.data.take 4 = b) (hab : a ≠ b) : s ≠ t := by
  intro he
  apply hab
  rw [← hs, he, ht]

/-! ## Claim C5 — summarizer input guard -/

/-- C5 counterexample: a payload with a present location and an empty point
list — fewer than one point — does not fail, contradicting the claim that
the summarizer fails exactly when the payload has fewer than one point or a
missing location. -/
theorem c5_counterexample :
    ([] : List ForecastPoint).length < 1 ∧
    (summarizeForecast (some { list := some [], city := some cityKigali })).isOk = true := by
  exact ⟨by decide, rfl⟩

/-- C5 (corrected): the summarizer fails with the invalid-forecast-data
error exactly when the payload itself or its `list` field is absent; every
payload with a present `list` (even an empty one) and a present location
succeeds; a payload with a present `list` but an absent location fails with
a TypeError, which is a different error. -/
theorem c5_summarizer_guard :
    (∀ fd : Option ForecastData,
      summarizeForecast fd = .error invalidForecastMsg ↔
        fd = none ∨ ∃ d, fd = some d ∧ d.list = none) ∧
    (∀ pts city,
      (summarizeForecast (some { list := some pts, city := some city })).isOk = true) ∧
    (∀ pts, summarizeForecast (some { list := some pts, city := none }) = .error cityTypeErrorMsg) ∧
    invalidForecastMsg ≠ cityTypeErrorMsg := by
  refine ⟨?_, fun pts city => rfl, fun pts => rfl, by decide⟩
  intro fd
  constructor
  · intro h
    match fd with
    | none => exact Or.inl rfl
    | some d =>
      refine Or.inr ⟨d, rfl, ?_⟩
      obtain ⟨l, c⟩ := d
      cases l with
      | none => rfl
      | some pts =>
        exfalso
        cases c with
        | none =>
          simp only [summarizeForecast] at h
          exact absurd (Except.error.inj h) (by decide)
        | some city =>
          simp only [summarizeForecast] at h
          exact Except.noConfusion h
  · intro h
    cases fd with
    | none => rfl
    | some d =>
      rcases h with h | ⟨d2, hd2, hl⟩
      · exact absurd h (by simp)
      · obtain rfl : d = d2 := Option.some.inj hd2
        obtain ⟨l, c⟩ := d
        cases l with
        | none => rfl
        | some pts => exact absurd hl (by simp)

/-- C5 witness: the guard fires on an absent list and the success branch at
the concrete Kigali payload. -/
theorem c5_witness :
    summarizeForecast (some { list := none, city := some cityKigali }) = .error invalidForecastMsg ∧
    (summarizeForecast (some { list := some c6pts, city := some cityKigali })).isOk = true := by
  exact ⟨(c5_summarizer_guard.1 (some { list := none, city := some cityKigali })).2
          (Or.inr ⟨_, rfl, rfl⟩),
        c5_summarizer_guard.2.1 c6pts cityKigali⟩

/-! ## Claim C7 — soil-pH bands -/

/-- C7 counterexample: 5.05 lies inside [4.0, 8.5] but between the
`very_acidic` and `acidic` bands, and the lookup returns no category — the
six bands do not cover the whole interval. -/
theorem c7_counterexample :
    ((4 : Rat) ≤ mkRat 101 20 ∧ (mkRat 101 20 : Rat) ≤ mkRat 17 2) ∧
    getSoilPhCategory (some (mkRat 101 20)) = none := by
  exact ⟨by decide, rfl⟩

/-- C7 (corrected): the six bands are non-overlapping closed decimal
intervals inside [4.0, 8.5]; every value inside a band maps to exactly that
band's category, every value in a gap between consecutive bands maps to no
category, and every value outside [4.0, 8.5] maps to no category.  The
fractional bounds are written as explicit rationals: `mkRat 51 10` is 5.1,
`mkRat 13 2` is 6.5, `mkRat 33 5` is 6.6, `mkRat 73 10` is 7.3,
`mkRat 37 5` is 7.4, `mkRat 39 5` is 7.8, `mkRat 79 10` is 7.9 and
`mkRat 17 2` is 8.5. -/
theorem c7_ph_bands (ph : Rat) :
    ((ph < 4 ∨ mkRat 17 2 < ph) → getSoilPhCategory (some ph) = none) ∧
    (4 ≤ ph ∧ ph ≤ 5 → getSoilPhCategory (some ph) = some soilPhCategories.very_acidic) ∧
    (5 < ph ∧ ph < mkRat 51 10 → getSoilPhCategory (some ph) = none) ∧
    (mkRat 51 10 ≤ ph ∧ ph ≤ 6 → getSoilPhCategory (some ph) = some soilPhCategories.acidic) ∧
    (6 < ph ∧ ph < mkRat 61 10 → getSoilPhCategory (some ph) = none) ∧
    (mkRat 61 10 ≤ ph ∧ ph ≤ mkRat 13 2 →
      getSoilPhCategory (some ph) = some soilPhCategories.slightly_acidic) ∧
    (mkRat 13 2 < ph ∧ ph < mkRat 33 5 → getSoilPhCategory (some ph) = none) ∧
    (mkRat 33 5 ≤ ph ∧ ph ≤ mkRat 73 10 →
      getSoilPhCategory (some ph) = some soilPhCategories.neutral) ∧
    (mkRat 73 10 < ph ∧ ph < mkRat 37 5 → getSoilPhCategory (some ph) = none) ∧
    (mkRat 37 5 ≤ ph ∧ ph ≤ mkRat 39 5 →
      getSoilPhCategory (some ph) = some soilPhCategories.slightly_alkaline) ∧
    (mkRat 39 5 < ph ∧ ph < mkRat 79 10 → getSoilPhCategory (some ph) = none) ∧
    (mkRat 79 10 ≤ ph ∧ ph ≤ mkRat 17 2 →
      getSoilPhCategory (some ph) = some soilPhCategories.alkaline) := by
  have o1 : (4 : Rat) < 5 := by decide
  have o2 : (5 : Rat) < mkRat 51 10 := by decide
  have o3 : mkRat 51 10 < (6 : Rat) := by decide
  have o4 : (6 : Rat) < mkRat 61 10 := by decide
  have o5 : mkRat 61 10 < mkRat 13 2 := by decide
  have o6 : mkRat 13 2 < mkRat 33 5 := by decide
  have o7 : mkRat 33 5 < mkRat 73 10 := by decide
  have o8 : mkRat 73 10 < mkRat 37 5 := by decide
  have o9 : mkRat 37 5 < mkRat 39 5 := by decide
  have o10 : mkRat 39 5 < mkRat 79 10 := by decide
  have o11 : mkRat 79 10 < mkRat 17 2 := by decide
  refine ⟨?_, ?_, ?_, ?_, ?_, ?_, ?_, ?_, ?_, ?_, ?_, ?_⟩
  · rintro (h | h) <;>
      (simp only [getSoilPhCategory]
       rw [if_neg (by rintro ⟨hc, hd⟩; linarith), if_neg (by rintro ⟨hc, hd⟩; linarith),
         if_neg (by rintro ⟨hc, hd⟩; linarith), if_neg (by rintro ⟨hc, hd⟩; linarith),
         if_neg (by rintro ⟨hc, hd⟩; linarith), if_neg (by rintro ⟨hc, hd⟩; linarith)])
  · rintro ⟨ha, hb⟩
    simp only [getSoilPhCategory]
    rw [if_pos ⟨ha, hb⟩]
  · rintro ⟨ha, hb⟩
    simp only [getSoilPhCategory]
    rw [if_neg (by rintro ⟨hc, hd⟩; linarith), if_neg (by rintro ⟨hc, hd⟩; linarith),
      if_neg (by rintro ⟨hc, hd⟩; linarith), if_neg (by rintro ⟨hc, hd⟩; linarith),
      if_neg (by rintro ⟨hc, hd⟩; linarith), if_neg (by rintro ⟨hc, hd⟩; linarith)]
  · rintro ⟨ha, hb⟩
    simp only [getSoilPhCategory]
    rw [if_neg (by rintro ⟨hc, hd⟩; linarith), if_pos ⟨ha, hb⟩]
  · rintro ⟨ha, hb⟩
    simp only [getSoilPhCategory]
    rw [if_neg (by rintro ⟨hc, hd⟩; linarith), if_neg (by rintro ⟨hc, hd⟩; linarith),
      if_neg (by rintro ⟨hc, hd⟩; linarith), if_neg (by rintro ⟨hc, hd⟩; linarith),
      if_neg (by rintro ⟨hc, hd⟩; linarith), if_neg (by rintro ⟨hc, hd⟩; linarith)]
  · rintro ⟨ha, hb⟩
    simp only [getSoilPhCategory]
    rw [if_neg (by rintro ⟨hc, hd⟩; linarith), if_neg (by rintro ⟨hc, hd⟩; linarith),
      if_pos ⟨ha, hb⟩]
  · rintro ⟨ha, hb⟩
    simp only [getSoilPhCategory]
    rw [if_neg (by rintro ⟨hc, hd⟩; linarith), if_neg (by rintro ⟨hc, hd⟩; linarith),
      if_neg (by rintro ⟨hc, hd⟩; linarith), if_neg (by rintro ⟨hc, hd⟩; linarith),
      if_neg (by rintro ⟨hc, hd⟩; linarith), if_neg (by rintro ⟨hc, hd⟩; linarith)]
  · rintro ⟨ha, hb⟩
    simp only [getSoilPhCategory]
    rw [if_neg (by rintro ⟨hc, hd⟩; linarith), if_neg (by rintro ⟨hc, hd⟩; linarith),
      if_neg (by rintro ⟨hc, hd⟩; linarith), if_pos ⟨ha, hb⟩]
  · rintro ⟨ha, hb⟩
    simp only [getSoilPhCategory]
    rw [if_neg (by rintro ⟨hc, hd⟩; linarith), if_neg (by rintro ⟨hc, hd⟩; linarith),
      if_neg (by rintro ⟨hc, hd⟩; linarith), if_neg (by rintro ⟨hc, hd⟩; linarith),
      if_neg (by rintro ⟨hc, hd⟩; linarith), if_neg (by rintro ⟨hc, hd⟩; linarith)]
  · rintro ⟨ha, hb⟩
    simp only [getSoilPhCategory]
    rw [if_neg (by rintro ⟨hc, hd⟩; linarith), if_neg (by rintro ⟨hc, hd⟩; linarith),
      if_neg (by rintro ⟨hc, hd⟩; linarith), if_neg (by rintro ⟨hc, hd⟩; linarith),
      if_pos ⟨ha, hb⟩]
  · rintro ⟨ha, hb⟩
    simp only [getSoilPhCategory]
    rw [if_neg (by rintro ⟨hc, hd⟩; linarith), if_neg (by rintro ⟨hc, hd⟩; linarith),
      if_neg (by rintro ⟨hc, hd⟩; linarith), if_neg (by rintro ⟨hc, hd⟩; linarith),
      if_neg (by rintro ⟨hc, hd⟩; linarith), if_neg (by rintro ⟨hc, hd⟩; linarith)]
  · rintro ⟨ha, hb⟩
    simp only [getSoilPhCategory]
    rw [if_neg (by rintro ⟨hc, hd⟩; linarith), if_neg (by rintro ⟨hc, hd⟩; linarith),
      if_neg (by rintro ⟨hc, hd⟩; linarith), if_neg (by rintro ⟨hc, hd⟩; linarith),
      if_neg (by rintro ⟨hc, hd⟩; linarith), if_pos ⟨ha, hb⟩]

/-- C7 witness: instantiations of the band theorem at representative
points (6.3 is `mkRat 63 10`; 9 is outside the covered range). -/
theorem c7_witness :
    getSoilPhCategory (some (mkRat 63 10)) = some soilPhCategories.slightly_acidic ∧
    getSoilPhCategory (some 9) = none := by
  exact ⟨(c7_ph_bands (mkRat 63 10)).2.2.2.2.2.1 (by constructor <;> decide),
        (c7_ph_bands 9).1 (by right; decide)⟩

/-! ## Claim C9 — coordinate resolution -/

/-- C9 counterexample: latitude 0 with a valid longitude is a valid
coordinate pair, yet the JS truthiness guard treats it as absent and the
fixed Kigali default is used instead of the supplied pair. -/
theorem c9_counterexample :
    validateCoordinates 0 30 = true ∧
    validateAndSetCoordinates (some 0) (some 30) = .ok getDefaultCoordinates ∧
    getDefaultCoordinates ≠ ((0 : Rat), (30 : Rat)) := by
  exact ⟨rfl, rfl, by decide⟩

/-- C9 (corrected): supplied coordinates are used as given only when both
are present, non-zero, and within range; a present non-zero pair out of
range fails; when either coordinate is absent — or equal to zero, which the
truthiness guard conflates with absent — the Kigali default is used. -/
theorem c9_coordinate_resolution (lat lon : Rat) :
    (lat ≠ 0 → lon ≠ 0 → validateCoordinates lat lon = true →
      validateAndSetCoordinates (some lat) (some lon) = .ok (lat, lon)) ∧
    (lat ≠ 0 → lon ≠ 0 → validateCoordinates lat lon = false →
      validateAndSetCoordinates (some lat) (some lon) = .error ("Invalid coordinates provided")) ∧
    validateAndSetCoordinates none none = .ok getDefaultCoordinates ∧
    validateAndSetCoordinates none (some lon) = .ok getDefaultCoordinates ∧
    validateAndSetCoordinates (some lat) none = .ok getDefaultCoordinates ∧
    ((lat = 0 ∨ lon = 0) →
      validateAndSetCoordinates (some lat) (some lon) = .ok getDefaultCoordinates) := by
  refine ⟨?_, ?_, rfl, rfl, ?_, ?_⟩
  · intro h1 h2 hv
    simp [validateAndSetCoordinates, truthyNum, h1, h2, hv]
  · intro h1 h2 hv
    simp [validateAndSetCoordinates, truthyNum, h1, h2, hv]
  · simp [validateAndSetCoordinates, truthyNum]
  · intro h
    rcases h with h | h <;> simp [validateAndSetCoordinates, truthyNum, h]

/-- C9 witness: the valid-pair branch at Kigali's own coordinates and the
invalid-pair branch at an out-of-range longitude. -/
theorem c9_witness :
    validateAndSetCoordinates (some defaultLat) (some defaultLon) = .ok (defaultLat, defaultLon) ∧
    validateAndSetCoordinates (some 5) (some 300) = .error ("Invalid coordinates provided") := by
  exact ⟨(c9_coordinate_resolution defaultLat defaultLon).1 (by decide) (by decide) (by decide),
        (c9_coordinate_resolution 5 300).2.1 (by norm_num) (by norm_num) (by decide)⟩

/-! ## Claim C4 — the warning generator -/

theorem danger_ne_high (w : Rat) (t : JsNum) : dangerWindMsg w ≠ highTempWarningMsg t :=
  ne_of_data_take4 (a := ['D', 'a', 'n', 'g']) (b := ['H', 'i', 'g', 'h']) rfl rfl (by decide)

theorem danger_ne_low (w : Rat) (t : JsNum) : dangerWindMsg w ≠ lowTempWarningMsg t :=
  ne_of_data_take4 (a := ['D', 'a', 'n', 'g']) (b := ['L', 'o', 'w', ' ']) rfl rfl (by decide)

theorem danger_ne_heavy (w : Rat) (n : Nat) : dangerWindMsg w ≠ heavyRainMsg n :=
  ne_of_data_take4 (a := ['D', 'a', 'n', 'g']) (b := ['H', 'e', 'a', 'v']) rfl rfl (by decide)

theorem danger_ne_noRain (w : Rat) : dangerWindMsg w ≠ noRainMsg :=
  ne_of_data_take4 (a := ['D', 'a', 'n', 'g']) (b := ['N', 'o', ' ', 'r']) rfl rfl (by decide)

theorem windWarn_ne_high (w : Rat) (t : JsNum) : windWarningMsg w ≠ highTempWarningMsg t :=
  ne_of_data_take4 (a := ['W', 'i', 'n', 'd']) (b := ['H', 'i', 'g', 'h']) rfl rfl (by decide)

theorem windWarn_ne_low (w : Rat) (t : JsNum) : windWarningMsg w ≠ lowTempWarningMsg t :=
  ne_of_data_take4 (a := ['W', 'i', 'n', 'd']) (b := ['L', 'o', 'w', ' ']) rfl rfl (by decide)

theorem windWarn_ne_danger (w v : Rat) : windWarningMsg w ≠ dangerWindMsg v :=
  ne_of_data_take4 (a := ['W', 'i', 'n', 'd']) (b := ['D', 'a', 'n', 'g']) rfl rfl (by decide)

theorem windWarn_ne_heavy (w : Rat) (n : Nat) : windWarningMsg w ≠ heavyRainMsg n :=
  ne_of_data_take4 (a := ['W', 'i', 'n', 'd']) (b := ['H', 'e', 'a', 'v']) rfl rfl (by decide)

theorem windWarn_ne_noRain (w : Rat) : windWarningMsg w ≠ noRainMsg :=
  ne_of_data_take4 (a := ['W', 'i', 'n', 'd']) (b := ['N', 'o', ' ', 'r']) rfl rfl (by decide)

theorem noRain_ne_high (t : JsNum) : noRainMsg ≠ highTempWarningMsg t :=
  ne_of_data_take4 (a := ['N', 'o', ' ', 'r']) (b := ['H', 'i', 'g', 'h']) rfl rfl (by decide)

theorem noRain_ne_low (t : JsNum) : noRainMsg ≠ lowTempWarningMsg t :=
  ne_of_data_take4 (a := ['N', 'o', ' ', 'r']) (b := ['L', 'o', 'w', ' ']) rfl rfl (by decide)

theorem noRain_ne_heavy (n : Nat) : noRainMsg ≠ heavyRainMsg n :=
  ne_of_data_take4 (a := ['N', 'o', ' ', 'r']) (b := ['H', 'e', 'a', 'v']) rfl rfl (by decide)

/-- Membership in the two-branch wind fragment. -/
theorem mem_cond_pair {α : Type} (c1 c2 : Prop) [Decidable c1] [Decidable c2] (x d w : α) :
    (x ∈ (if c1 then [d] else if c2 then [w] else [])) ↔
      ((c1 ∧ x = d) ∨ (¬c1 ∧ c2 ∧ x = w)) := by
  split_ifs with h1 h2 <;> simp_all

set_option maxHeartbeats 1000000 in
/-- Which strings can occur in the generated warning list, and under which
conditions. -/
theorem mem_generateWeatherWarnings (fs : ForecastSummary) (x : String) :
    x ∈ generateWeatherWarnings fs ↔
      ((fs.maxTemperature.gtR weatherThresholds.temperature.max = true ∧
          x = highTempWarningMsg fs.maxTemperature) ∨
       (fs.minTemperature.ltR weatherThresholds.temperature.min = true ∧
          x = lowTempWarningMsg fs.minTemperature) ∨
       (weatherThresholds.windSpeed.danger ≤ fs.maxWindSpeed ∧
          x = dangerWindMsg fs.maxWindSpeed) ∨
       (¬weatherThresholds.windSpeed.danger ≤ fs.maxWindSpeed ∧
          weatherThresholds.windSpeed.warning ≤ fs.maxWindSpeed ∧
          x = windWarningMsg fs.maxWindSpeed) ∨
       (0 < fs.heavyRainHours ∧ x = heavyRainMsg fs.heavyRainHours) ∨
       ((fs.totalRainfall = 0 ∧ fs.rainHours = 0) ∧ x = noRainMsg)) := by
  simp only [generateWeatherWarnings, List.mem_append, mem_if_singleton, mem_cond_pair]
  tauto

/-- C4 (confirmed): the generator emits the warning fragments in the fixed
order temperature-high, temperature-low, wind, heavy-rain, no-rain; the
danger-wind and warning-wind messages are mutually exclusive with danger
taking precedence; the no-rain advisory fires exactly on zero total
rainfall and zero rain intervals, independently of the heavy-rain check;
maximum temperature 36 against threshold 35 yields exactly one
high-temperature warning, which co-occurs with the no-rain advisory as two
distinct entries. -/
theorem c4_warning_generator (fs : ForecastSummary) :
    (generateWeatherWarnings fs =
      (if fs.maxTemperature.gtR weatherThresholds.temperature.max then
        [highTempWarningMsg fs.maxTemperature] else [])
      ++ (if fs.minTemperature.ltR weatherThresholds.temperature.min then
        [lowTempWarningMsg fs.minTemperature] else [])
      ++ (if weatherThresholds.windSpeed.danger ≤ fs.maxWindSpeed then
            [dangerWindMsg fs.maxWindSpeed]
          else if weatherThresholds.windSpeed.warning ≤ fs.maxWindSpeed then
            [windWarningMsg fs.maxWindSpeed]
          else [])
      ++ (if 0 < fs.heavyRainHours then [heavyRainMsg fs.heavyRainHours] else [])
      ++ (if fs.totalRainfall = 0 ∧ fs.rainHours = 0 then [noRainMsg] else [])) ∧
    ¬(dangerWindMsg fs.maxWindSpeed ∈ generateWeatherWarnings fs ∧
        windWarningMsg fs.maxWindSpeed ∈ generateWeatherWarnings fs) ∧
    (weatherThresholds.windSpeed.danger ≤ fs.maxWindSpeed →
      dangerWindMsg fs.maxWindSpeed ∈ generateWeatherWarnings fs ∧
        windWarningMsg fs.maxWindSpeed ∉ generateWeatherWarnings fs) ∧
    (noRainMsg ∈ generateWeatherWarnings fs ↔ (fs.totalRainfall = 0 ∧ fs.rainHours = 0)) ∧
    generateWeatherWarnings fsHot36 = [highTempWarningMsg (.fin 36), noRainMsg] ∧
    (generateWeatherWarnings fsHot36).countP
      (fun w => decide (w = highTempWarningMsg (JsNum.fin 36))) = 1 ∧
    highTempWarningMsg (.fin 36) ≠ noRainMsg := by
  refine ⟨rfl, ?_, ?_, ?_, rfl, by decide, by decide⟩
  · rintro ⟨hd, hw⟩
    rw [mem_generateWeatherWarnings] at hd hw
    rcases hd with ⟨_, he⟩ | ⟨_, he⟩ | ⟨hc1, _⟩ | ⟨_, _, he⟩ | ⟨_, he⟩ | ⟨_, he⟩
    · exact absurd he (danger_ne_high _ _)
    · exact absurd he (danger_ne_low _ _)
    · rcases hw with ⟨_, he⟩ | ⟨_, he⟩ | ⟨_, he⟩ | ⟨hn, _, _⟩ | ⟨_, he⟩ | ⟨_, he⟩
      · exact absurd he (windWarn_ne_high _ _)
      · exact absurd he (windWarn_ne_low _ _)
      · exact absurd he (windWarn_ne_danger _ _)
      · exact hn hc1
      · exact absurd he (windWarn_ne_heavy _ _)
      · exact absurd he (windWarn_ne_noRain _)
    · exact absurd he (windWarn_ne_danger _ _).symm
    · exact absurd he (danger_ne_heavy _ _)
    · exact absurd he (danger_ne_noRain _)
  · intro h40
    constructor
    · rw [mem_generateWeatherWarnings]
      exact Or.inr (Or.inr (Or.inl ⟨h40, rfl⟩))
    · intro hmem
      rw [mem_generateWeatherWarnings] at hmem
      rcases hmem with ⟨_, he⟩ | ⟨_, he⟩ | ⟨_, he⟩ | ⟨hn, _, _⟩ | ⟨_, he⟩ | ⟨_, he⟩
      · exact absurd he (windWarn_ne_high _ _)
      · exact absurd he (windWarn_ne_low _ _)
      · exact absurd he (windWarn_ne_danger _ _)
      · exact hn h40
      · exact absurd he (windWarn_ne_heavy _ _)
      · exact absurd he (windWarn_ne_noRain _)
  · rw [mem_generateWeatherWarnings]
    constructor
    · rintro (⟨_, he⟩ | ⟨_, he⟩ | ⟨_, he⟩ | ⟨_, _, he⟩ | ⟨_, he⟩ | ⟨hc, _⟩)
      · exact absurd he (noRain_ne_high _)
      · exact absurd he (noRain_ne_low _)
      · exact absurd (he.symm) (danger_ne_noRain _)
      · exact absurd (he.symm) (windWarn_ne_noRain _)
      · exact absurd he (noRain_ne_heavy _)
      · exact hc
    · intro hc
      exact Or.inr (Or.inr (Or.inr (Or.inr (Or.inr ⟨hc, rfl⟩))))

/-- C4 witness: the dangerous-wind branch of the theorem at a concrete
summary with wind 45 km/h. -/
theorem c4_witness :
    dangerWindMsg 45 ∈ generateWeatherWarnings
      { neutralForecastSummary defaultLat defaultLon with maxWindSpeed := 45, rainHours := 1 } ∧
    windWarningMsg 45 ∉ generateWeatherWarnings
      { neutralForecastSummary defaultLat defaultLon with maxWindSpeed := 45, rainHours := 1 } := by
  exact (c4_warning_generator
    { neutralForecastSummary defaultLat defaultLon with
        maxWindSpeed := 45, rainHours := 1 }).2.2.1 (by decide)

/-! ## Claim C6 — summarizer rainfall metrics -/

/-- Characterization of the rainfall fields of the summarizer's fold. -/
theorem foldl_stepPoint_rain (pts : List ForecastPoint) (acc : SumAcc) :
    (pts.foldl stepPoint acc).totalRainfall
        = acc.totalRainfall + (pts.filterMap (fun p => p.rain)).sum ∧
    (pts.foldl stepPoint acc).rainHours
        = acc.rainHours + pts.countP (fun p =>
            match p.rain with
            | some v => decide (v ≠ 0)
            | none => false) ∧
    (pts.foldl stepPoint acc).heavyRainHours
        = acc.heavyRainHours + pts.countP (fun p =>
            match p.rain with
            | some v => decide (weatherThresholds.rainfall.heavy ≤ v)
            | none => false) := by
  induction pts generalizing acc with
  | nil => simp
  | cons p rest ih =>
    obtain ⟨ih1, ih2, ih3⟩ := ih (stepPoint acc p)
    simp only [List.foldl_cons, List.filterMap_cons, List.countP_cons, ih1, ih2, ih3]
    refine ⟨?_, ?_, ?_⟩
    · cases hr : p.rain with
      | none => simp [stepPoint, hr]
      | some r =>
        by_cases h0 : r = 0
        · subst h0
          simp [stepPoint, hr]
        · simp [stepPoint, hr, h0, qAdd_eq]
          ring
    · cases hr : p.rain with
      | none => simp [stepPoint, hr]
      | some r =>
        by_cases h0 : r = 0
        · subst h0
          simp [stepPoint, hr]
        · simp [stepPoint, hr, h0]
          omega
    · cases hr : p.rain with
      | none => simp [stepPoint, hr]
      | some r =>
        by_cases h15 : weatherThresholds.rainfall.heavy ≤ r
        · have h0 : r ≠ 0 := by
            intro h
            rw [h] at h15
            exact absurd h15 (by decide)
          simp [stepPoint, hr, h0, h15]
          omega
        · simp [stepPoint, hr, h15]

/-- C6 (confirmed): on any successfully summarized payload, the first 16
points are used; `totalRainfall` is the one-decimal rounding of the sum of
the present precipitation values, `heavyRainHours` counts intervals at or
above the heavy threshold (15 mm), and `rainHours` counts intervals with
positive precipitation (for physically meaningful non-negative
precipitation values). -/
theorem c6_summarizer_metrics (pts : List ForecastPoint) (city : CityInfo) (s : ForecastSummary)
    (hnn : ∀ p ∈ pts, ∀ v, p.rain = some v → 0 ≤ v)
    (h : summarizeForecast (some { list := some pts, city := some city }) = .ok s) :
    s.totalRainfall = round1 ((pts.take 16).filterMap (fun p => p.rain)).sum ∧
    s.heavyRainHours = (pts.take 16).countP (fun p =>
        match p.rain with
        | some v => decide (weatherThresholds.rainfall.heavy ≤ v)
        | none => false) ∧
    s.rainHours = (pts.take 16).countP (fun p =>
        match p.rain with
        | some v => decide (0 < v)
        | none => false) := by
  simp only [summarizeForecast, Except.ok.injEq] at h
  subst h
  obtain ⟨f1, f2, f3⟩ := foldl_stepPoint_rain (pts.take 16) {}
  refine ⟨?_, ?_, ?_⟩
  · show round1 ((pts.take 16).foldl stepPoint {}).totalRainfall = _
    rw [f1]
    norm_num
  · show ((pts.take 16).foldl stepPoint {}).heavyRainHours = _
    rw [f3]
    simp
  · show ((pts.take 16).foldl stepPoint {}).rainHours = _
    rw [f2]
    have : (pts.take 16).countP (fun p =>
        match p.rain with
        | some v => decide (v ≠ 0)
        | none => false)
      = (pts.take 16).countP (fun p =>
        match p.rain with
        | some v => decide (0 < v)
        | none => false) := by
      apply List.countP_congr
      intro p hp
      have hnn2 := hnn p (List.take_subset 16 pts hp)
      cases hr : p.rain with
      | none => rfl
      | some v =>
        have hv := hnn2 v hr
        simp only []
        have : (v ≠ 0) ↔ (0 < v) := by
          constructor
          · intro hne
            exact lt_of_le_of_ne hv (Ne.symm hne)
          · intro hlt
            exact (ne_of_gt hlt)
        rw [decide_eq_decide.mpr this]
    rw [this]
    simp

/-- C6 witness: the spec's synthetic series with precipitation
[0, 20, 0, 0] yields one heavy-rain interval and 20 mm total rainfall. -/
theorem c6_witness :
    ∃ s, summarizeForecast (some c6payload) = .ok s ∧
      s.heavyRainHours = 1 ∧ s.totalRainfall = 20 := by
  match hh : summarizeForecast (some c6payload) with
  | .ok s =>
    have hc := c6_summarizer_metrics c6pts cityKigali s (by decide) hh
    refine ⟨s, rfl, ?_, ?_⟩
    · rw [hc.2.1]
      decide
    · have e : (summarizeForecast (some c6payload)).toOption.map
          (fun x => x.totalRainfall) = some (20 : Rat) := rfl
      rw [hh] at e
      simp only [Except.toOption, Option.map_some] at e
      exact Option.some.inj e
  | .error e =>
    have hok : (summarizeForecast (some c6payload)).isOk = true := rfl
    rw [hh] at hok
    simp [Except.isOk, Except.toBool] at hok

/-! ## Claim C3 — rule-based advisor output shape -/

/-- Each of the four season branches contributes exactly 3 actions. -/
theorem seasonStep_actions_three (s : String)
    (hs : s ∈ ["shortDry", "longRains", "longDry", "shortRains"]) :
    (seasonStep s).actions.length = 3 := by
  fin_cases hs <;> rfl

/-- C3 (confirmed): for each of the four seasons and four crops and any
forecast summary and optional parameters on which the advisor succeeds, the
advice's `actions` list is non-empty (the season branch always contributes
three), the `season` and `crop` fields echo the inputs exactly, and each of
the three narrative fields defaults to the empty string when its trigger
parameter is absent.  The five list fields are total `List` values by
construction in this embedding, matching the never-null guarantee. -/
theorem c3_rule_advisor_output (season cropType : String) (fs : ForecastSummary)
    (ad : AdditionalData) (a : Advice)
    (hs : season ∈ ["shortDry", "longRains", "longDry", "shortRains"])
    (hc : cropType ∈ ["maize", "beans", "potatoes", "bananas"])
    (h : generateBasicSeasonalAdvice cropType season fs ad = .ok a) :
    a.actions ≠ [] ∧ a.season = season ∧ a.crop = cropType ∧
    (ad.soilPh = none → a.soil_ph_analysis = "") ∧
    (ad.growthState = none → a.growth_stage_advice = "") ∧
    (ad.variety = none → a.variety_specific_tips = "") := by
  unfold generateBasicSeasonalAdvice at h
  cases hci : getCropInfo cropType with
  | error e => rw [hci] at h; exact absurd h (by simp)
  | ok crop =>
    rw [hci] at h
    cases hsf : soilStep cropType ad.soilPh with
    | error e => rw [hsf] at h; exact absurd h (by simp)
    | ok sf =>
      rw [hsf] at h
      cases hgf : growthStep ad.growthState with
      | error e => rw [hgf] at h; exact absurd h (by simp)
      | ok gf =>
        rw [hgf] at h
        simp only [Except.ok.injEq] at h
        subst h
        refine ⟨?_, rfl, rfl, ?_, ?_, ?_⟩
        · intro hnil
          have hlen := congrArg List.length hnil
          simp only [List.length_append, List.length_nil,
            seasonStep_actions_three season hs] at hlen
          omega
        · intro hx
          rw [hx] at hsf
          simp only [soilStep, Except.ok.injEq] at hsf
          rw [← hsf]
        · intro hx
          rw [hx] at hgf
          simp only [growthStep, Except.ok.injEq] at hgf
          rw [← hgf]
        · intro hx
          show (varietyStep crop ad.variety fs).narrative = ""
          rw [hx]
          rfl

/-- C3 witness: the advisor at maize in the long dry season with the
neutral summary and no optional parameters. -/
theorem c3_witness :
    ∃ a, generateBasicSeasonalAdvice "maize" "longDry" (neutralForecastSummary 0 0) {} = .ok a ∧
      a.actions ≠ [] ∧ a.season = "longDry" ∧ a.crop = "maize" ∧ a.soil_ph_analysis = "" := by
  match hh : generateBasicSeasonalAdvice "maize" "longDry" (neutralForecastSummary 0 0) {} with
  | .ok a =>
    have hc := c3_rule_advisor_output "longDry" "maize" (neutralForecastSummary 0 0) {} a
      (by decide) (by decide) hh
    exact ⟨a, rfl, hc.1, hc.2.1, hc.2.2.1, hc.2.2.2.1 rfl⟩
  | .error e =>
    have hok : (generateBasicSeasonalAdvice "maize" "longDry"
        (neutralForecastSummary 0 0) {}).isOk = true := rfl
    rw [hh] at hok
    simp [Except.isOk, Except.toBool] at hok

/-! ## Claim C8 — external-advice parser extraction -/

theorem jsIndexOfFirst_eq_none_iff (cs : List Char) (c : Char) :
    jsIndexOfFirst cs c = none ↔ c ∉ cs := by
  induction cs with
  | nil => simp [jsIndexOfFirst]
  | cons d rest ih =>
    simp only [jsIndexOfFirst]
    split_ifs with hd
    · subst hd
      simp
    · rw [Option.map_eq_none', ih]
      simp only [List.mem_cons]
      constructor
      · intro hn
        rintro (he | he)
        · exact hd he.symm
        · exact hn he
      · intro hn he
        exact hn (Or.inr he)

theorem jsIndexOfLast_eq_none_iff (cs : List Char) (c : Char) :
    jsIndexOfLast cs c = none ↔ c ∉ cs := by
  simp [jsIndexOfLast, Option.map_eq_none', jsIndexOfFirst_eq_none_iff]

theorem extractJsonSpan_none_iff (s : String) :
    extractJsonSpan s = none ↔ (leftBrace ∉ s.data ∨ rightBrace ∉ s.data) := by
  unfold extractJsonSpan
  cases hf : jsIndexOfFirst s.data leftBrace with
  | none => simp [(jsIndexOfFirst_eq_none_iff _ _).mp hf]
  | some i =>
    cases hl : jsIndexOfLast s.data rightBrace with
    | none => simp [(jsIndexOfLast_eq_none_iff _ _).mp hl]
    | some j =>
      constructor
      · intro h
        exact absurd h (by simp)
      · rintro (h | h)
        · exact absurd ((jsIndexOfFirst_eq_none_iff _ _).mpr h) (by rw [hf]; simp)
        · exact absurd ((jsIndexOfLast_eq_none_iff _ _).mpr h) (by rw [hl]; simp)

set_option maxRecDepth 40000 in
/-- C8 (confirmed): the parser treats the substring from the first left
brace to the last right brace as the payload; the no-structured-payload
error occurs exactly when either bracket is absent; the spec's test input
parses successfully using only the braced span, and a bracket-free input
fails with the no-structured-payload error. -/
theorem c8_parser_extraction :
    (∀ (s : String) (fs : ForecastSummary) (se cr : String) (ad : AdditionalData),
      parseAIResponse s fs se cr ad = .error .noJsonFound ↔
        (leftBrace ∉ s.data ∨ rightBrace ∉ s.data)) ∧
    extractJsonSpan c8input = some c8span ∧
    (parseAIResponse c8input c8fs "longDry" "maize" {}).toOption.map
        (fun a => (a.forecast_summary, a.season, a.crop, a.actions, a.warnings,
          a.productivity_tips))
      = some ("x", "longDry", "maize", [], [], []) ∧
    parseAIResponse "no structured payload here" c8fs "longDry" "maize" {}
      = .error .noJsonFound := by
  refine ⟨?_, rfl, rfl, rfl⟩
  intro s fs se cr ad
  constructor
  · intro h
    unfold parseAIResponse at h
    cases he : extractJsonSpan s with
    | none => exact (extractJsonSpan_none_iff s).mp he
    | some js =>
      rw [he] at h
      simp only [] at h
      exfalso
      cases hp : jsonParse js with
      | none =>
        rw [hp] at h
        simp only [] at h
        exact AiParseError.noConfusion (Except.error.inj h)
      | some jv =>
        rw [hp] at h
        simp only [] at h
        split_ifs at h with hm <;>
          first
            | exact AiParseError.noConfusion (Except.error.inj h)
            | exact Except.noConfusion h
  · intro h
    unfold parseAIResponse
    rw [(extractJsonSpan_none_iff s).mpr h]

/-- C8 witness: the general bracket characterization applied to the spec's
bracket-free input. -/
theorem c8_witness :
    parseAIResponse "noise only" c8fs "longDry" "maize" {} = .error .noJsonFound := by
  exact (c8_parser_extraction.1 "noise only" c8fs "longDry" "maize" {}).mpr
    (Or.inl (by decide))

/-! ## Success lemmas for the orchestrator claims -/

theorem getCropInfo_ok (c : String) (hc : validateCropType c = true) :
    ∃ info, getCropInfo c = .ok info := by
  unfold validateCropType at hc
  rw [Bool.and_eq_true] at hc
  obtain ⟨-, h2⟩ := hc
  unfold getCropInfo
  cases hl : lookupStr cropsCfg (jsToLower c) with
  | none => rw [hl] at h2; exact absurd h2 (by simp)
  | some info => exact ⟨info, rfl⟩

theorem soilStep_ok (c : String) (ph? : Option Rat) (hc : validateCropType c = true) :
    ∃ sf, soilStep c ph? = .ok sf := by
  obtain ⟨info, hinfo⟩ := getCropInfo_ok c hc
  cases ph? with
  | none => exact ⟨{}, rfl⟩
  | some ph =>
    unfold soilStep isSoilPhSuitableForCrop getCropSoilPh
    simp only [bind, Except.bind, pure, Except.pure, hinfo]
    split_ifs <;> exact ⟨_, rfl⟩

theorem growthStep_ok (gs? : Option String)
    (hg : ∀ g, gs? = some g → g ∈ validGrowthStates) :
    ∃ gf, growthStep gs? = .ok gf := by
  cases gs? with
  | none => exact ⟨{}, rfl⟩
  | some g =>
    have hmem := hg g rfl
    fin_cases hmem <;> exact ⟨_, rfl⟩

theorem basicAdvice_ok (c s : String) (fs : ForecastSummary) (ad : AdditionalData)
    (hc : validateCropType c = true)
    (hg : ∀ g, ad.growthState = some g → g ∈ validGrowthStates) :
    ∃ b, generateBasicSeasonalAdvice c s fs ad = .ok b ∧ b.metadata = none ∧
      b.forecast_summary = basicForecastNarrative fs := by
  obtain ⟨info, hinfo⟩ := getCropInfo_ok c hc
  obtain ⟨sf, hsf⟩ := soilStep_ok c ad.soilPh hc
  obtain ⟨gf, hgf⟩ := growthStep_ok ad.growthState hg
  unfold generateBasicSeasonalAdvice
  rw [hinfo, hsf, hgf]
  exact ⟨_, rfl, rfl, rfl⟩

theorem varietyPart_growthState (opts : Options) (acc ad : AdditionalData)
    (h : validateAdditionalData.validateVarietyPart opts acc = .ok ad) :
    ad.growthState = acc.growthState := by
  unfold validateAdditionalData.validateVarietyPart at h
  cases hv : opts.variety with
  | none =>
    rw [hv] at h
    simp only [Except.ok.injEq] at h
    rw [← h]
  | some v =>
    rw [hv] at h
    simp only [] at h
    split_ifs at h <;> simp only [Except.ok.injEq] at h <;> rw [← h]

theorem growthPart_valid (opts : Options) (acc ad : AdditionalData)
    (hacc : acc.growthState = none)
    (h : validateAdditionalData.validateGrowthPart opts acc = .ok ad) :
    ∀ g, ad.growthState = some g → g ∈ validGrowthStates := by
  unfold validateAdditionalData.validateGrowthPart at h
  cases hgs0 : opts.growthState with
  | none =>
    rw [hgs0] at h
    simp only [] at h
    intro g hgs
    rw [varietyPart_growthState opts acc ad h, hacc] at hgs
    exact absurd hgs (by simp)
  | some gs =>
    rw [hgs0] at h
    simp only [] at h
    split_ifs at h with h0 hmem
    · intro g hgs
      rw [varietyPart_growthState opts acc ad h, hacc] at hgs
      exact absurd hgs (by simp)
    · intro g hgs
      rw [varietyPart_growthState opts _ ad h] at hgs
      simp only [Option.some.injEq] at hgs
      rw [← hgs]
      exact hmem

theorem validateAdditionalData_growthValid (opts : Options) (ad : AdditionalData)
    (h : validateAdditionalData opts = .ok ad) :
    ∀ g, ad.growthState = some g → g ∈ validGrowthStates := by
  unfold validateAdditionalData at h
  cases hph : opts.soilPh with
  | none =>
    rw [hph] at h
    simp only [] at h
    exact growthPart_valid opts {} ad rfl h
  | some ph =>
    rw [hph] at h
    simp only [] at h
    split_ifs at h
    exact growthPart_valid opts { soilPh := some ph } ad rfl h

/-- A successfully parsed AI reply has a truthy — hence non-empty —
forecast narrative. -/
theorem parseAIResponse_ok_narrative (t : String) (fs : ForecastSummary)
    (se cr : String) (ad : AdditionalData) (a : Advice)
    (h : parseAIResponse t fs se cr ad = .ok a) : a.forecast_summary ≠ "" := by
  unfold parseAIResponse at h
  cases he : extractJsonSpan t with
  | none => rw [he] at h; exact absurd h (by simp)
  | some js =>
    rw [he] at h
    simp only [] at h
    cases hp : jsonParse js with
    | none => rw [hp] at h; exact absurd h (by simp)
    | some j =>
      rw [hp] at h
      simp only [] at h
      by_cases hm : List.filter (fun f => !fieldTruthy j f) requiredAdviceFields = []
      · rw [if_neg (by simp [hm])] at h
        rw [Except.ok.injEq] at h
        subst h
        have hfor : fieldTruthy j "forecast_summary" = true := by
          have := List.filter_eq_nil.mp hm "forecast_summary" (by decide)
          simp only [Bool.not_eq_true'] at this
          simpa using this
        unfold fieldTruthy at hfor
        cases hv : jsonGet j "forecast_summary" with
        | none => rw [hv] at hfor; exact absurd hfor (by simp)
        | some v =>
          rw [hv] at hfor
          show getStringField j "forecast_summary" ≠ ""
          unfold getStringField
          rw [hv]
          exact jsonRender_truthy_ne_empty v hfor
      · rw [if_pos hm] at h
        exact absurd h (by simp)

/-- The advisor's own narrative is never empty. -/
theorem basicForecastNarrative_ne_empty (fs : ForecastSummary) :
    basicForecastNarrative fs ≠ "" :=
  ne_of_data_take4 (a := ['W', 'e', 'a', 't']) (b := []) rfl rfl (by decide)

/-- Every message produced by the soil-suitability check starts with
"Soil". -/
theorem isSoilPh_message_take4 (c : String) (ph : Rat) (s : SoilSuitability)
    (h : isSoilPhSuitableForCrop c (some ph) = .ok s) :
    s.message.data.take 4 = ['S', 'o', 'i', 'l'] := by
  unfold isSoilPhSuitableForCrop at h
  cases hcp : getCropSoilPh c with
  | error e =>
    rw [hcp] at h
    exact absurd h (by simp [bind, Except.bind])
  | ok cropPh =>
    rw [hcp] at h
    simp only [bind, Except.bind, pure, Except.pure] at h
    split_ifs at h <;> (rw [Except.ok.injEq] at h; rw [← h]) <;> rfl

theorem lowDrought_ne_noRain : lowDroughtWarningMsg ≠ noRainMsg := by decide

theorem generateAdviceCore_validated (env : Env) (opts : Options) (la lo : Rat) (c : String)
    (ad : AdditionalData)
    (hcoord : validateAndSetCoordinates opts.lat opts.lon = .ok (la, lo))
    (hcrop : opts.crop = some c)
    (hc : validateCropType (jsToLower c) = true)
    (had : validateAdditionalData opts = .ok ad) :
    generateAdviceCore env opts = adviceTail env la lo (jsToLower c) ad opts.useAI := by
  have hne : c ≠ "" := by
    intro h0
    rw [h0] at hc
    exact absurd hc (by decide)
  unfold generateAdviceCore
  rw [hcoord, hcrop]
  simp only []
  rw [if_neg hne]
  simp only [hc, Bool.not_true, Bool.false_eq_true, if_false]
  rw [had]

theorem gemini_fails (env : Env) (fs : ForecastSummary) (se cr : String) (ad : AdditionalData)
    (hKey : env.hasGeminiKey = true)
    (hAi : ∀ t, env.aiOutcome = Except.ok t → leftBrace ∉ t.data) :
    ∃ e, geminiGenerateAdvice env fs se cr ad = .error e := by
  unfold geminiGenerateAdvice
  rw [hKey]
  simp only [if_true]
  cases ha : env.aiOutcome with
  | error e => exact ⟨e, rfl⟩
  | ok t =>
    have hp : parseAIResponse t fs se cr ad = .error .noJsonFound := by
      unfold parseAIResponse
      rw [(extractJsonSpan_none_iff t).mpr (Or.inl (hAi t ha))]
    simp only []
    rw [hp]
    exact ⟨_, rfl⟩

/-! ## Claim C1 — fallback cascade and the advice-source tag -/

/-- C1 counterexample: the AI generator is enabled and configured
(`useAI` not disabled, key present) and its reply is unparsable, the
rule-based fallback produces the advice (the gemini-only inner `source`
metadata tag is absent) and no error surfaces — yet
`metadata.advice_source` is "gemini_ai", not "basic_seasonal". -/
theorem c1_counterexample :
    envAiFail.hasGeminiKey = true ∧
    optsMaize.useAI ≠ some false ∧
    (∀ t, envAiFail.aiOutcome = Except.ok t → leftBrace ∉ t.data) ∧
    (generateAdvice envAiFail optsMaize).toOption.map
      (fun a => (metaAdviceSource a, metaInnerSource a)) = some (some "gemini_ai", none) ∧
    some "gemini_ai" ≠ some "basic_seasonal" := by
  refine ⟨rfl, by decide, ?_, rfl, by decide⟩
  intro t ht
  have : t = "The weather is nice today." := (Except.ok.inj ht).symm
  rw [this]
  decide

/-- C1 (corrected): when the generator is enabled and configured but its
call or parse fails, the orchestrator does fall back to the rule-based
advisor and no error surfaces — the returned advice's content is exactly
the rule-based advice — but `metadata.advice_source` equals "gemini_ai",
the attempted path, not "basic_seasonal". -/
theorem c1_fallback_source_tag (env : Env) (opts : Options) (la lo : Rat) (c : String)
    (ad : AdditionalData)
    (hcoord : validateAndSetCoordinates opts.lat opts.lon = .ok (la, lo))
    (hcrop : opts.crop = some c)
    (hc : validateCropType (jsToLower c) = true)
    (had : validateAdditionalData opts = .ok ad)
    (hUse : opts.useAI ≠ some false)
    (hKey : env.hasGeminiKey = true)
    (hAi : ∀ t, env.aiOutcome = Except.ok t → leftBrace ∉ t.data) :
    ∃ a fsS b, generateAdvice env opts = .ok a ∧
      generateBasicSeasonalAdvice (jsToLower c) (detectCurrentSeason env.currentMonth).season
        fsS ad = .ok b ∧
      a = { b with metadata := a.metadata } ∧
      metaAdviceSource a = some "gemini_ai" ∧
      metaInnerSource a = none := by
  have hcore := generateAdviceCore_validated env opts la lo c ad hcoord hcrop hc had
  have hUseAI : opts.useAI ≠ some false ∧ env.hasGeminiKey := ⟨hUse, by rw [hKey]⟩
  have hgv := validateAdditionalData_growthValid opts ad had
  unfold adviceTail at hcore
  simp only [] at hcore
  rw [if_pos hUseAI] at hcore
  cases hw : weatherStepResult env with
  | ok s =>
    rw [hw] at hcore
    simp only [] at hcore
    obtain ⟨e, hge⟩ := gemini_fails env { s with warnings := generateWeatherWarnings s }
      (detectCurrentSeason env.currentMonth).season (jsToLower c) ad hKey hAi
    rw [hge] at hcore
    obtain ⟨b, hb, hbm, hbn⟩ := basicAdvice_ok (jsToLower c)
      (detectCurrentSeason env.currentMonth).season
      { s with warnings := generateWeatherWarnings s } ad hc hgv
    rw [hb] at hcore
    simp only [hbm] at hcore
    rw [if_pos hUseAI] at hcore
    refine ⟨{ b with metadata := some { location := some (la, lo), season_info := some (detectCurrentSeason env.currentMonth), weather_service_available := some env.hasWeatherKey, ai_service_available := some env.hasGeminiKey, advice_source := some "gemini_ai", additional_data := some ad, api_version := some "1.0.0" } }, { s with warnings := generateWeatherWarnings s }, b, ?_, hb, rfl, rfl, rfl⟩
    unfold generateAdvice
    rw [hcore]
    rfl
  | error e0 =>
    rw [hw] at hcore
    simp only [] at hcore
    obtain ⟨e, hge⟩ := gemini_fails env (neutralForecastSummary la lo)
      (detectCurrentSeason env.currentMonth).season (jsToLower c) ad hKey hAi
    rw [show ({ neutralForecastSummary la lo with warnings := ([] : List String) })
        = neutralForecastSummary la lo from rfl] at hcore
    rw [hge] at hcore
    obtain ⟨b, hb, hbm, hbn⟩ := basicAdvice_ok (jsToLower c)
      (detectCurrentSeason env.currentMonth).season (neutralForecastSummary la lo) ad hc hgv
    rw [hb] at hcore
    simp only [hbm] at hcore
    rw [if_pos hUseAI] at hcore
    refine ⟨{ b with metadata := some { location := some (la, lo), season_info := some (detectCurrentSeason env.currentMonth), weather_service_available := some env.hasWeatherKey, ai_service_available := some env.hasGeminiKey, advice_source := some "gemini_ai", additional_data := some ad, api_version := some "1.0.0" } }, neutralForecastSummary la lo, b, ?_, hb, rfl, rfl, rfl⟩
    unfold generateAdvice
    rw [hcore]
    rfl

/-- C1 witness: the amended theorem at the concrete failing-AI
environment. -/
theorem c1_witness :
    ∃ a fsS b, generateAdvice envAiFail optsMaize = .ok a ∧
      generateBasicSeasonalAdvice "maize" "longDry" fsS {} = .ok b ∧
      a = { b with metadata := a.metadata } ∧
      metaAdviceSource a = some "gemini_ai" ∧
      metaInnerSource a = none := by
  have h := c1_fallback_source_tag envAiFail optsMaize defaultLat defaultLon "maize" {}
    rfl rfl (by decide) rfl (by decide) rfl
    (by
      intro t ht
      have : t = "The weather is nice today." := (Except.ok.inj ht).symm
      rw [this]
      decide)
  exact h

/-- A successful AI generation carries a non-empty forecast narrative. -/
theorem gemini_ok_narrative (env : Env) (fs : ForecastSummary) (se cr : String)
    (ad : AdditionalData) (a : Advice)
    (h : geminiGenerateAdvice env fs se cr ad = .ok a) : a.forecast_summary ≠ "" := by
  unfold geminiGenerateAdvice at h
  split_ifs at h with hk
  cases ha : env.aiOutcome with
  | error e => rw [ha] at h; exact absurd h (by simp)
  | ok t =>
    rw [ha] at h
    simp only [] at h
    cases hp : parseAIResponse t fs se cr ad with
    | error pe => rw [hp] at h; exact absurd h (by simp)
    | ok a2 =>
      rw [hp] at h
      simp only [Except.ok.injEq] at h
      rw [← h]
      exact parseAIResponse_ok_narrative t fs se cr ad a2 hp

/-- Every warning pushed by the soil step starts with "Soil". -/
theorem soilStep_warning_mem (cq : String) (ph? : Option Rat) (sf : SoilFrag) (w : String)
    (h : soilStep cq ph? = .ok sf) (hm : w ∈ sf.warnings) :
    w.data.take 4 = ['S', 'o', 'i', 'l'] := by
  cases ph? with
  | none =>
    have h2 : (.ok ({} : SoilFrag) : Except String SoilFrag) = .ok sf := h
    rw [Except.ok.injEq] at h2
    rw [← h2] at hm
    exact absurd hm (by simp)
  | some ph =>
    unfold soilStep at h
    simp only [] at h
    cases hs : isSoilPhSuitableForCrop cq (some ph) with
    | error e =>
      rw [hs] at h
      exact absurd h (by simp [bind, Except.bind])
    | ok s =>
      rw [hs] at h
      simp only [bind, Except.bind, pure, Except.pure, Except.ok.injEq] at h
      rw [← h] at hm
      by_cases hsuit : s.suitable = true
      · simp [hsuit] at hm
      · simp [hsuit] at hm
        rw [hm]
        exact isSoilPh_message_take4 cq ph s hs

/-- The only warning the variety step can push is the low-drought one. -/
theorem varietyStep_warning_mem (crop : CropInfo) (v? : Option String)
    (fs : ForecastSummary) (w : String)
    (hm : w ∈ (varietyStep crop v? fs).warnings) : w = lowDroughtWarningMsg := by
  unfold varietyStep at hm
  cases hv0 : v? with
  | none =>
    rw [hv0] at hm
    exact absurd hm (by simp)
  | some v =>
    rw [hv0] at hm
    simp only [] at hm
    by_cases hv : v = ""
    · rw [if_pos hv] at hm
      exact absurd hm (by simp)
    · rw [if_neg hv] at hm
      cases hl : lookupStr crop.varieties v with
      | none => rw [hl] at hm; exact absurd hm (by simp)
      | some vi =>
        rw [hl] at hm
        simp only [] at hm
        by_cases hd : vi.droughtResistance = "low" ∧ fs.totalRainfall = 0
        · rw [if_pos hd] at hm
          simpa using hm
        · rw [if_neg hd] at hm
          exact absurd hm (by simp)

/-- The rule-based advice built on a summary with empty attached warnings
never contains the no-rain advisory. -/
theorem basicAdvice_noRain_free (c s : String) (fs : ForecastSummary) (ad : AdditionalData)
    (b : Advice) (hfs : fs.warnings = [])
    (hb : generateBasicSeasonalAdvice c s fs ad = .ok b) :
    noRainMsg ∉ b.warnings := by
  unfold generateBasicSeasonalAdvice at hb
  cases hci : getCropInfo c with
  | error e => rw [hci] at hb; exact absurd hb (by simp)
  | ok crop =>
    rw [hci] at hb
    cases hsf : soilStep c ad.soilPh with
    | error e => rw [hsf] at hb; exact absurd hb (by simp)
    | ok sf =>
      rw [hsf] at hb
      cases hgf : growthStep ad.growthState with
      | error e => rw [hgf] at hb; exact absurd hb (by simp)
      | ok gf =>
        rw [hgf] at hb
        simp only [Except.ok.injEq] at hb
        subst hb
        intro hmem
        simp only [List.mem_append, hfs, List.not_mem_nil, or_false] at hmem
        rcases hmem with hmem | hmem
        · have := soilStep_warning_mem c ad.soilPh sf noRainMsg hsf hmem
          exact absurd this (by decide)
        · have := varietyStep_warning_mem crop ad.variety fs noRainMsg hmem
          exact lowDrought_ne_noRain this.symm

/-! ## Claim C2 — degraded weather mode -/

/-- C2 counterexample: the forecast call fails while the weather key is
configured, the request still succeeds — but
`metadata.weather_service_available` is `true`, not `false`: the flag
reports key configuration, not call success. -/
theorem c2_counterexample :
    envWeatherFail.hasWeatherKey = true ∧
    weatherStepResult envWeatherFail = .error ("OpenWeather API request timeout") ∧
    (generateAdvice envWeatherFail optsMaize).toOption.map metaWeatherAvailable
      = some (some true) ∧
    (some true : Option Bool) ≠ some false := by
  exact ⟨rfl, rfl, rfl, by decide⟩

/-- C2 (corrected): when the forecast stage fails on a validated request,
the orchestrator still returns an Advice with a populated (non-empty)
forecast narrative, built from the fixed neutral summary on the rule-based
path; but `metadata.weather_service_available` equals the key-configuration
flag `env.hasWeatherKey` — it is `false` only when the OpenWeather key is
absent, not whenever the call failed. -/
theorem c2_degraded_mode (env : Env) (opts : Options) (la lo : Rat) (c : String)
    (ad : AdditionalData) (e0 : String)
    (hcoord : validateAndSetCoordinates opts.lat opts.lon = .ok (la, lo))
    (hcrop : opts.crop = some c)
    (hc : validateCropType (jsToLower c) = true)
    (had : validateAdditionalData opts = .ok ad)
    (hw : weatherStepResult env = .error e0) :
    ∃ a, generateAdvice env opts = .ok a ∧
      a.forecast_summary ≠ "" ∧
      metaWeatherAvailable a = some env.hasWeatherKey := by
  have hcore := generateAdviceCore_validated env opts la lo c ad hcoord hcrop hc had
  have hgv := validateAdditionalData_growthValid opts ad had
  unfold adviceTail at hcore
  simp only [] at hcore
  rw [hw] at hcore
  simp only [] at hcore
  rw [show ({ neutralForecastSummary la lo with warnings := ([] : List String) })
      = neutralForecastSummary la lo from rfl] at hcore
  by_cases hUseAI : opts.useAI ≠ some false ∧ env.hasGeminiKey
  · rw [if_pos hUseAI] at hcore
    cases hg : geminiGenerateAdvice env (neutralForecastSummary la lo)
        (detectCurrentSeason env.currentMonth).season (jsToLower c) ad with
    | ok ag =>
      rw [hg] at hcore
      simp only [List.length_nil, Nat.lt_irrefl, if_false, if_pos hUseAI] at hcore
      refine ⟨{ ag with metadata := some { ag.metadata.getD {} with location := some (la, lo), season_info := some (detectCurrentSeason env.currentMonth), weather_service_available := some env.hasWeatherKey, ai_service_available := some env.hasGeminiKey, advice_source := some "gemini_ai", additional_data := some ad, api_version := some "1.0.0" } }, ?_, ?_, rfl⟩
      · unfold generateAdvice
        rw [hcore]
      · show ag.forecast_summary ≠ ""
        exact gemini_ok_narrative env (neutralForecastSummary la lo)
          (detectCurrentSeason env.currentMonth).season (jsToLower c) ad ag hg
    | error ge =>
      rw [hg] at hcore
      obtain ⟨b, hb, hbm, hbn⟩ := basicAdvice_ok (jsToLower c)
        (detectCurrentSeason env.currentMonth).season (neutralForecastSummary la lo) ad hc hgv
      rw [hb] at hcore
      simp only [hbm] at hcore
      rw [if_pos hUseAI] at hcore
      refine ⟨{ b with metadata := some { location := some (la, lo), season_info := some (detectCurrentSeason env.currentMonth), weather_service_available := some env.hasWeatherKey, ai_service_available := some env.hasGeminiKey, advice_source := some "gemini_ai", additional_data := some ad, api_version := some "1.0.0" } }, ?_, ?_, rfl⟩
      · unfold generateAdvice
        rw [hcore]
        rfl
      · show b.forecast_summary ≠ ""
        rw [hbn]
        exact basicForecastNarrative_ne_empty (neutralForecastSummary la lo)
  · rw [if_neg hUseAI] at hcore
    obtain ⟨b, hb, hbm, hbn⟩ := basicAdvice_ok (jsToLower c)
      (detectCurrentSeason env.currentMonth).season (neutralForecastSummary la lo) ad hc hgv
    rw [hb] at hcore
    simp only [hbm] at hcore
    rw [if_neg hUseAI] at hcore
    refine ⟨{ b with metadata := some { location := some (la, lo), season_info := some (detectCurrentSeason env.currentMonth), weather_service_available := some env.hasWeatherKey, ai_service_available := some env.hasGeminiKey, advice_source := some "basic_seasonal", additional_data := some ad, api_version := some "1.0.0" } }, ?_, ?_, rfl⟩
    · unfold generateAdvice
      rw [hcore]
      rfl
    · show b.forecast_summary ≠ ""
      rw [hbn]
      exact basicForecastNarrative_ne_empty (neutralForecastSummary la lo)

/-- C2 witness: the degraded-mode theorem at the concrete failing-weather
environment. -/
theorem c2_witness :
    ∃ a, generateAdvice envWeatherFail optsMaize = .ok a ∧
      a.forecast_summary ≠ "" ∧
      metaWeatherAvailable a = some true := by
  exact c2_degraded_mode envWeatherFail optsMaize defaultLat defaultLon "maize" {}
    ("OpenWeather API request timeout") rfl rfl (by decide) rfl rfl

/-! ## Claim C10 — no weather warnings in degraded mode -/

/-- C10 (confirmed): when the forecast stage fails, the empty warning list
computed before the failure is what gets attached — the warning generator
is never re-invoked on the substituted neutral summary — so on the
rule-based path the returned advice contains no weather-generated warning
(in particular not the no-rain advisory), even though running the
generator on the neutral summary would produce exactly that advisory. -/
theorem c10_degraded_warnings (env : Env) (opts : Options) (la lo : Rat) (c : String)
    (ad : AdditionalData) (e0 : String)
    (hcoord : validateAndSetCoordinates opts.lat opts.lon = .ok (la, lo))
    (hcrop : opts.crop = some c)
    (hc : validateCropType (jsToLower c) = true)
    (had : validateAdditionalData opts = .ok ad)
    (hw : weatherStepResult env = .error e0)
    (hAIoff : opts.useAI = some false ∨ env.hasGeminiKey = false) :
    ∃ a, generateAdvice env opts = .ok a ∧
      noRainMsg ∉ a.warnings ∧
      generateWeatherWarnings (neutralForecastSummary la lo) = [noRainMsg] := by
  have hcore := generateAdviceCore_validated env opts la lo c ad hcoord hcrop hc had
  have hgv := validateAdditionalData_growthValid opts ad had
  have hnUseAI : ¬(opts.useAI ≠ some false ∧ env.hasGeminiKey) := by
    rcases hAIoff with h | h
    · rintro ⟨h1, -⟩
      exact h1 h
    · rintro ⟨-, h2⟩
      rw [h] at h2
      exact absurd h2 (by decide)
  unfold adviceTail at hcore
  simp only [] at hcore
  rw [hw] at hcore
  simp only [] at hcore
  rw [show ({ neutralForecastSummary la lo with warnings := ([] : List String) })
      = neutralForecastSummary la lo from rfl] at hcore
  rw [if_neg hnUseAI] at hcore
  obtain ⟨b, hb, hbm, hbn⟩ := basicAdvice_ok (jsToLower c)
    (detectCurrentSeason env.currentMonth).season (neutralForecastSummary la lo) ad hc hgv
  rw [hb] at hcore
  simp only [hbm] at hcore
  rw [if_neg hnUseAI] at hcore
  refine ⟨{ b with metadata := some { location := some (la, lo), season_info := some (detectCurrentSeason env.currentMonth), weather_service_available := some env.hasWeatherKey, ai_service_available := some env.hasGeminiKey, advice_source := some "basic_seasonal", additional_data := some ad, api_version := some "1.0.0" } }, ?_, ?_, rfl⟩
  · unfold generateAdvice
    rw [hcore]
    rfl
  · show noRainMsg ∉ b.warnings
    exact basicAdvice_noRain_free (jsToLower c) (detectCurrentSeason env.currentMonth).season
      (neutralForecastSummary la lo) ad b rfl hb

/-- C10 witness: the theorem at the concrete failing-weather environment
with the AI generator unconfigured. -/
theorem c10_witness :
    ∃ a, generateAdvice envWeatherFail optsMaize = .ok a ∧
      noRainMsg ∉ a.warnings ∧
      generateWeatherWarnings (neutralForecastSummary defaultLat defaultLon) = [noRainMsg] := by
  exact c10_degraded_warnings envWeatherFail optsMaize defaultLat defaultLon "maize" {}
    ("OpenWeather API request timeout") rfl rfl (by decide) rfl rfl (Or.inr rfl)

end PlantAdvisor
